import Mathlib

/-!
KEITHSDR `SDR_RA8875/UserInput.h`: the touch event broker.

A shallow embedding of `Touch()` and `Gesture_Handler()` from `UserInput.h`.

* Machine integers are `Nat`/`Int`; the conversion to `int16_t` is the explicit
  wrap `toInt16`.  Operands of `-`, `abs` and the comparisons are promoted to the
  32-bit `int` of the target, where none of the expressions of this file overflows.
* The touch controller `tft` and the timer `gesture_timer` (Metro) are external: what
  they report on one call of `Touch()` is the input `Poll`.
* Calls of functions are observable events, collected in call order in a `List Call`.
  The functions called (`changeBands`, `Rate`, `Set_Spectrum_Scale`, `codec1.volume`,
  `Button_Handler`) do not write `touch_evt`; `previous_touch` is local to `Touch()`.
* `user_settings[user_Profile].spkr_Vol_last` is a float: a value is the rational number
  the float stands for, and the two updates of `Gesture_Handler` round as the IEEE 754
  operations of the program do (`toDouble`, `toFloat`; round to nearest, ties to even).
-/

namespace UserInput

/-- Source line 24: `#define BUTTON_TOUCH 40`. -/
def BUTTON_TOUCH : Int := 40

/-- Conversion of an `int` value to `int16_t`: two's complement wrap modulo `2^16`. -/
def toInt16 (z : Int) : Int := (z + 32768) % 65536 - 32768

/-- The Arduino `abs` on an `int` operand: `((x)>0?(x):-(x))`. -/
def abs (x : Int) : Int := if x > 0 then x else -x

/-- Assignment `a[i][j] = v` to a two-dimensional array. -/
def set2 {α : Type} (a : Nat → Nat → α) (i j : Nat) (v : α) : Nat → Nat → α :=
  fun i' j' => if i' = i ∧ j' = j then v else a i' j'

/-- Rounding of a rational to the nearest integer, ties to the even one. -/
def roundHalfEven (m : ℚ) : Int :=
  if m - ⌊m⌋ < 1 / 2 then ⌊m⌋
  else if m - ⌊m⌋ > 1 / 2 then ⌊m⌋ + 1
  else if ⌊m⌋ % 2 = 0 then ⌊m⌋ else ⌊m⌋ + 1

/-- The exponent of the spacing of the binary floating-point numbers with `p` significant
bits around `q`: for `2^e <= |q| < 2^(e+1)` the spacing is `2^(e - (p - 1))`, and no
smaller than `2^emin` (the subnormal range). -/
def quantumExp (p : Nat) (emin : Int) (q : ℚ) : Int :=
  max (Int.log 2 (if q < 0 then -q else q) - (p - 1)) emin

/-- Rounding of a rational to the nearest binary floating-point number with `p`
significant bits and least spacing `2^emin`, ties to even (IEEE 754 round to nearest; the
values of this file are far from the overflow threshold). -/
def roundFloat (p : Nat) (emin : Int) (q : ℚ) : ℚ :=
  if q = 0 then 0
  else roundHalfEven (q / 2 ^ quantumExp p emin q) * 2 ^ quantumExp p emin q

/-- The value of a `double` (binary64) constant or result: 53 significant bits. -/
def toDouble (q : ℚ) : ℚ := roundFloat 53 (-1074) q

/-- Conversion of a `double` result to `float` (binary32): 24 significant bits. -/
def toFloat (q : ℚ) : ℚ := roundFloat 24 (-149) q

/-- Source lines 51-57: `struct Touch_Control`.  The arrays have `MAXTOUCHLIMIT` rows
(a constant of the display library) and two columns (x, y); they are total maps from the
two indices, the coordinates being `uint16_t` values and the distances `int16_t` values. -/
structure Touch_Control where
  start_coordinates : Nat → Nat → Nat
  last_coordinates : Nat → Nat → Nat
  distance : Nat → Nat → Int

/-- The variables of the program that `Touch()` and `Gesture_Handler()` read or write:
the function-static `previous_touch`, the file-static `touch_evt`, and the externs
`user_Profile` and `user_settings[...].spkr_Vol_last`. -/
structure State where
  previous_touch : Nat
  touch_evt : Touch_Control
  user_Profile : Nat
  spkr_Vol_last : Nat → ℚ

/-- What the external collaborators report during one call of `Touch()`:
`tft.touched()`, `tft.getTouches()`, the table that `tft.getTScoordinates(a)` stores in
`a` (after the last `tft.updateTS()` of the call), and whether `gesture_timer.check()`
returns 1 when it is called. -/
structure Poll where
  touched : Bool
  getTouches : Nat
  getTScoordinates : Nat → Nat → Nat
  timer_expired : Bool

/-- Observable calls, in the order the program makes them.  `Button_Handler` and
`Gesture_Handler` carry the argument values of the call expression (the callee binds the
first argument of `Button_Handler` to an `int16_t` parameter). -/
inductive Call where
  | Button_Handler (x y : Nat)
  | Gesture_Handler (gesture : Nat)
  | changeBands (dir : Int)
  | Rate (dir : Int)
  | Set_Spectrum_Scale (dir : Int)
  | codec1_volume (vol : ℚ)
  | gesture_timer_reset
  | Serial_print (s : String)
  | Serial_println (s : String)
  | Serial_print_int (n : Int)
  | Serial_println_int (n : Int)
  | Serial_println_float (v : ℚ)
  deriving DecidableEq

/-- Source line 286: `int16_t dist_start = sqrt(pow(t2_x_s - t1_x_s, 2) + pow(t2_y_s - t1_y_s, 2))`
on the `int16_t` copies of the start coordinates.  The double-precision value of the
square root of an integer below `2^53`, truncated, is the integer square root; a value
that does not fit `int16_t` is wrapped like the other conversions. -/
def dist_start (s : State) : Int :=
  let t1_x_s := toInt16 (s.touch_evt.start_coordinates 0 0)
  let t1_y_s := toInt16 (s.touch_evt.start_coordinates 0 1)
  let t2_x_s := toInt16 (s.touch_evt.start_coordinates 1 0)
  let t2_y_s := toInt16 (s.touch_evt.start_coordinates 1 1)
  toInt16 (Nat.sqrt ((t2_x_s - t1_x_s) ^ 2 + (t2_y_s - t1_y_s) ^ 2).toNat)

/-- Source line 287: `int16_t dist_end = sqrt(pow(t2_x_e - t1_x_e, 2) + pow(t2_y_e - t1_y_e, 2))`. -/
def dist_end (s : State) : Int :=
  let t1_x_e := toInt16 (s.touch_evt.last_coordinates 0 0)
  let t1_y_e := toInt16 (s.touch_evt.last_coordinates 0 1)
  let t2_x_e := toInt16 (s.touch_evt.last_coordinates 1 0)
  let t2_y_e := toInt16 (s.touch_evt.last_coordinates 1 1)
  toInt16 (Nat.sqrt ((t2_x_e - t1_x_e) ^ 2 + (t2_y_e - t1_y_e) ^ 2).toNat)

/-- Source lines 214-330: `void Gesture_Handler(uint8_t gesture)`.  The `DBG_GESTURE`
prints are not compiled.  `case 3` is an `if` without `else` whose body ends in `break`:
when its condition fails control falls through to `case 0` / `default`.  In
`spkr_Vol_last -= 0.2` and `spkr_Vol_last += 0.1` the float operand is converted to
`double`, the operation is done in `double` with the `double` constant, and the result is
converted to `float` for the store; the stored value is the argument of
`codec1.volume`. -/
def Gesture_Handler (gesture : Nat) (s : State) : State × List Call :=
  let T1_X := s.touch_evt.distance 0 0
  let T1_Y := s.touch_evt.distance 0 1
  let t1_x_s := toInt16 (s.touch_evt.start_coordinates 0 0)
  let t1_y_s := toInt16 (s.touch_evt.start_coordinates 0 1)
  let t1_x_e := toInt16 (s.touch_evt.last_coordinates 0 0)
  let t1_y_e := toInt16 (s.touch_evt.last_coordinates 0 1)
  if gesture = 1 then
    if abs T1_Y > abs T1_X then
      if T1_Y > 0 then (s, [Call.changeBands (-1)])
      else (s, [Call.changeBands 1])
    else
      if T1_X < 0 then (s, [Call.Rate (-1), Call.Serial_println "Swiped Left"])
      else (s, [Call.Rate 1, Call.Serial_println "Swiped Right"])
  else if gesture = 2 then
    let pinch_in := if dist_start s - dist_end s > 200 then [Call.Set_Spectrum_Scale (-1)] else []
    let pinch_out := if dist_end s - dist_start s > 200 then [Call.Set_Spectrum_Scale 1] else []
    let volume :=
      if dist_end s - dist_start s ≤ 200 ∧ abs (t1_x_s - t1_x_e) < 200 ∧ abs (t1_y_s - t1_y_e) > 200 then
        [Call.Serial_println "Volume UP"]
      else if dist_start s - dist_end s ≤ 200 then
        [Call.Serial_println "Volume DOWN"]
      else []
    (s, pinch_in ++ pinch_out ++ volume)
  else if gesture = 3 ∧ abs T1_Y > abs T1_X then
    if T1_Y > 0 then
      let v := toFloat (toDouble (s.spkr_Vol_last s.user_Profile - toDouble 0.2))
      ({ s with spkr_Vol_last := Function.update s.spkr_Vol_last s.user_Profile v },
        [Call.codec1_volume v, Call.Serial_print "3-point Volume DOWN  ", Call.Serial_println_float v])
    else
      let v := toFloat (toDouble (s.spkr_Vol_last s.user_Profile + toDouble 0.1))
      ({ s with spkr_Vol_last := Function.update s.spkr_Vol_last s.user_Profile v },
        [Call.codec1_volume v, Call.Serial_print "3-point Volume UP  ", Call.Serial_println_float v])
  else
    (s, [Call.Serial_println " Gesture = 0 : Should not be here!"])

/-- Source lines 115-123: the debug prints of STATE 2, one group per reported touch. -/
def debugStart (current_touches : Nat) (start_coordinates : Nat → Nat → Nat) : List Call :=
  (List.range current_touches).flatMap fun i =>
    [Call.Serial_print " touch point#=", Call.Serial_print_int i,
     Call.Serial_print " x=", Call.Serial_print_int (start_coordinates i 0),
     Call.Serial_print " y=", Call.Serial_println_int (start_coordinates i 1)]

/-- Source lines 158-201: STATE 4 of `Touch()`, the finger was lifted. -/
def Touch_lifted (s : State) (p : Poll) : State × List Call :=
  let last := p.getTScoordinates
  let start := s.touch_evt.start_coordinates
  let d0 := set2 s.touch_evt.distance 0 0 (toInt16 ((last 0 0 : Int) - start 0 0))
  let d1 := set2 d0 0 1 (toInt16 ((last 0 1 : Int) - start 0 1))
  let d3 :=
    if s.previous_touch = 1 then
      set2 (set2 d1 1 0 0) 1 1 0
    else
      set2 (set2 d1 1 0 (toInt16 ((last 1 0 : Int) - start 1 0))) 1 1
        (toInt16 ((last 1 1 : Int) - start 1 1))
  let s1 : State :=
    { s with touch_evt := { s.touch_evt with last_coordinates := last, distance := d3 } }
  let r : State × List Call :=
    if s.previous_touch = 1 ∧ abs (d3 0 0) < BUTTON_TOUCH ∧ abs (d3 0 1) < BUTTON_TOUCH then
      (s1, [Call.Button_Handler (start 0 0) (start 0 1)])
    else
      ((Gesture_Handler s.previous_touch s1).1,
        Call.Gesture_Handler s.previous_touch :: (Gesture_Handler s.previous_touch s1).2)
  let s2 := r.1
  ({ s2 with
      previous_touch := 0
      touch_evt := { s2.touch_evt with
        distance := set2 (set2 (set2 (set2 s2.touch_evt.distance 0 0 0) 0 1 0) 1 0 0) 1 1 0 } },
    r.2)

/-- Source lines 67-204: `void Touch(void)`, one poll of the state engine. -/
def Touch (s : State) (p : Poll) : State × List Call :=
  if p.touched then
    let current_touches := p.getTouches
    if current_touches = 0 ∧ s.previous_touch = 0 then
      (s, [])
    else if current_touches ≠ 0 ∧ s.previous_touch = 0 then
      ({ s with
          previous_touch := current_touches
          touch_evt := { s.touch_evt with
            start_coordinates := p.getTScoordinates
            last_coordinates := p.getTScoordinates } },
        debugStart current_touches p.getTScoordinates ++ [Call.gesture_timer_reset])
    else if current_touches ≠ 0 ∧ s.previous_touch ≠ 0 then
      if p.timer_expired then
        ({ s with previous_touch := 0 }, [Call.Serial_println "Touch Timer expired"])
      else
        ({ s with touch_evt := { s.touch_evt with last_coordinates := p.getTScoordinates } }, [])
    else if current_touches = 0 ∧ s.previous_touch ≠ 0 then
      Touch_lifted s p
    else (s, [])
  else (s, [])

/-- Successive calls of `Touch()`, one per poll, with the calls made along the way. -/
def run (s : State) : List Poll → State × List Call
  | [] => (s, [])
  | p :: ps => ((run (Touch s p).1 ps).1, (Touch s p).2 ++ (run (Touch s p).1 ps).2)

/-- The state at program start: `touch_evt` and `previous_touch` are zero-initialised
statics; the user settings are whatever the rest of the program set up. -/
def initState (user_Profile : Nat) (spkr_Vol_last : Nat → ℚ) : State :=
  { previous_touch := 0
    touch_evt :=
      { start_coordinates := fun _ _ => 0
        last_coordinates := fun _ _ => 0
        distance := fun _ _ => 0 }
    user_Profile := user_Profile
    spkr_Vol_last := spkr_Vol_last }

/-- States the program can be in between two calls of `Touch()`: the start state, the
state after a call of `Touch()`, or a state in which the rest of the program has changed
the user settings. -/
inductive Reachable : State → Prop
  | start (user_Profile : Nat) (spkr_Vol_last : Nat → ℚ) :
      Reachable (initState user_Profile spkr_Vol_last)
  | poll (s : State) (p : Poll) : Reachable s → Reachable (Touch s p).1
  | settings (s : State) (user_Profile : Nat) (spkr_Vol_last : Nat → ℚ) :
      Reachable s → Reachable { s with user_Profile := user_Profile, spkr_Vol_last := spkr_Vol_last }

/-- Calls of one of the two handlers of `Touch()`. -/
def Call.isHandler : Call → Bool
  | Call.Button_Handler _ _ => true
  | Call.Gesture_Handler _ => true
  | _ => false

/-- Diagnostic output and timer housekeeping, as opposed to handler calls and actions. -/
def Call.isDiagnostic : Call → Bool
  | Call.gesture_timer_reset => true
  | Call.Serial_print _ => true
  | Call.Serial_println _ => true
  | Call.Serial_print_int _ => true
  | Call.Serial_println_int _ => true
  | Call.Serial_println_float _ => true
  | _ => false

/-- The handler calls of a trace, in order. -/
def handlerCalls (t : List Call) : List Call := t.filter Call.isHandler

/-- The handler calls and actions of a trace, in order (everything but diagnostics). -/
def actions (t : List Call) : List Call := t.filter fun c => !c.isDiagnostic

/-- A poll that starts a session: the controller reports `n > 0` touches. -/
def Poll.isPress (p : Poll) (n : Nat) : Prop :=
  p.touched = true ∧ p.getTouches = n ∧ n ≠ 0

/-- A tracking poll: finger(s) still in contact and the timer has not expired. -/
def Poll.isTracking (p : Poll) : Prop :=
  p.touched = true ∧ p.getTouches ≠ 0 ∧ p.timer_expired = false

/-- A poll on which the timer expires with finger(s) still in contact. -/
def Poll.isTimeout (p : Poll) : Prop :=
  p.touched = true ∧ p.getTouches ≠ 0 ∧ p.timer_expired = true

/-- A poll on which the controller reports a touch event with no touch point. -/
def Poll.isLift (p : Poll) : Prop :=
  p.touched = true ∧ p.getTouches = 0

instance (p : Poll) (n : Nat) : Decidable (p.isPress n) := by unfold Poll.isPress; infer_instance
instance (p : Poll) : Decidable p.isTracking := by unfold Poll.isTracking; infer_instance
instance (p : Poll) : Decidable p.isTimeout := by unfold Poll.isTimeout; infer_instance
instance (p : Poll) : Decidable p.isLift := by unfold Poll.isLift; infer_instance

/-- A coordinate table with touch point 0 at `(x0, y0)` and touch point 1 at `(x1, y1)`. -/
def points (x0 y0 x1 y1 : Nat) : Nat → Nat → Nat
  | 0, 0 => x0
  | 0, 1 => y0
  | 1, 0 => x1
  | 1, 1 => y1
  | _, _ => 0

/-- A poll with a touch event: `n` touches, the two points, and the timer status. -/
def touchPoll (n x0 y0 x1 y1 : Nat) (expired : Bool) : Poll :=
  { touched := true, getTouches := n, getTScoordinates := points x0 y0 x1 y1,
    timer_expired := expired }

/-- A state as `Gesture_Handler` finds it when `Touch()` classifies a session of `n`
touches whose touch point 0 went from `(sx, sy)` to `(ex, ey)`, the speaker volume of the
current profile being `vol`. -/
def classifyState (n sx sy ex ey : Nat) (vol : ℚ) : State :=
  { previous_touch := n
    touch_evt :=
      { start_coordinates := points sx sy 0 0
        last_coordinates := points ex ey 0 0
        distance := fun i j =>
          if i = 0 ∧ j = 0 then toInt16 ((ex : Int) - sx)
          else if i = 0 ∧ j = 1 then toInt16 ((ey : Int) - sy)
          else 0 }
    user_Profile := 0
    spkr_Vol_last := fun _ => vol }

/-- The finger-lift transition: a touch event with no touch point while a session is
pending. -/
def liftTransition (s : State) (p : Poll) : Prop :=
  p.touched = true ∧ p.getTouches = 0 ∧ s.previous_touch ≠ 0

instance (s : State) (p : Poll) : Decidable (liftTransition s p) := by
  unfold liftTransition; infer_instance

/-- Source lines 158-186: the first part of STATE 4, up to the classification: the
coordinates of the lift poll are stored and the distances are computed.  This is the
state that `Button_Handler` or `Gesture_Handler` is called in. -/
def Touch_lifted_distances (s : State) (p : Poll) : State :=
  let last := p.getTScoordinates
  let start := s.touch_evt.start_coordinates
  let d0 := set2 s.touch_evt.distance 0 0 (toInt16 ((last 0 0 : Int) - start 0 0))
  let d1 := set2 d0 0 1 (toInt16 ((last 0 1 : Int) - start 0 1))
  let d3 :=
    if s.previous_touch = 1 then
      set2 (set2 d1 1 0 0) 1 1 0
    else
      set2 (set2 d1 1 0 (toInt16 ((last 1 0 : Int) - start 1 0))) 1 1
        (toInt16 ((last 1 1 : Int) - start 1 1))
  { s with touch_evt := { s.touch_evt with last_coordinates := last, distance := d3 } }

/-- Two coordinate tables agree on the touch points below `k` (x and y, the two columns
of the arrays). -/
def agreeBelow (k : Nat) (a b : Nat → Nat → Nat) : Prop :=
  ∀ i j, i < k → j < 2 → a i j = b i j

/-- Two polls report the same, except possibly the coordinates of the touch points from
index `k` on. -/
def Poll.agree (k : Nat) (p q : Poll) : Prop :=
  p.touched = q.touched ∧ p.getTouches = q.getTouches ∧ p.timer_expired = q.timer_expired
    ∧ agreeBelow k p.getTScoordinates q.getTScoordinates

/-- Two states hold the same, except possibly the stored coordinates of the touch points
from index 2 on and the distances (which `Touch()` writes before it reads them). -/
def State.agree (s t : State) : Prop :=
  s.previous_touch = t.previous_touch ∧ s.user_Profile = t.user_Profile
    ∧ s.spkr_Vol_last = t.spkr_Vol_last
    ∧ agreeBelow 2 s.touch_evt.start_coordinates t.touch_evt.start_coordinates
    ∧ agreeBelow 2 s.touch_evt.last_coordinates t.touch_evt.last_coordinates

/-- A coordinate table with touch points 0 and 1 as in `points` and touch point 2 at
`(x2, y2)`. -/
def points3 (x0 y0 x1 y1 x2 y2 : Nat) : Nat → Nat → Nat
  | 2, 0 => x2
  | 2, 1 => y2
  | i, j => points x0 y0 x1 y1 i j

/-- A poll with a touch event that reports three touch points. -/
def touchPoll3 (n x0 y0 x1 y1 x2 y2 : Nat) (expired : Bool) : Poll :=
  { touched := true, getTouches := n, getTScoordinates := points3 x0 y0 x1 y1 x2 y2,
    timer_expired := expired }

/-- The state in which `Gesture_Handler(2)` is called for the two-finger session of the
specification: fingers at (50,50), (150,150), lifted at (80,80), (120,120). -/
def twoFingerExample : State :=
  Touch_lifted_distances
    (Touch (initState 0 fun _ => 0) (touchPoll 2 50 50 150 150 false)).1
    (touchPoll 0 80 80 120 120 false)

/-! ## `Button_Handler`

The button and label tables, the frequency display areas and the constants `ON`, `OFF`,
`PANEL_ROWS`, `PRESETS` are declared in files that are not part of `UserInput.h`.  The
positions `MODE_BTN`, ..., `FN_BTN` and `MODE_LBL`, ... are distinct entries of the two
tables.  The control functions (`setMode`, `Filter`, ...) and the display functions are
external: a call is an event, and they are taken not to write the tables read here.
-/

/-- The positions of `std_btn[]` that `Button_Handler` uses. -/
inductive Btn where
  | MODE_BTN | FILTER_BTN | RATE_BTN | AGC_BTN | ANT_BTN | MUTE_BTN | MENU_BTN | VFO_AB_BTN
  | ATTEN_BTN | PREAMP_BTN | RIT_BTN | XIT_BTN | SPLIT_BTN | XVTR_BTN | ATU_BTN | FINE_BTN
  | XMIT_BTN | NB_BTN | NR_BTN | ENET_BTN | SPOT_BTN | NOTCH_BTN | BANDUP_BTN | BANDDN_BTN
  | BAND_BTN | DISPLAY_BTN | FN_BTN
  deriving DecidableEq

/-- The positions of `labels[]` that `Button_Handler` uses. -/
inductive Lbl where
  | MODE_LBL | FILTER_LBL | RATE_LBL | AGC_LBL | ANT_LBL
  deriving DecidableEq

/-- Modelled from the spec: the visibility flags of the button table; `OFF` is the C
truth value false. -/
def OFF : Nat := 0

/-- Modelled from the spec: the visibility flags of the button table; `ON` is a C
truth value true. -/
def ON : Nat := 1

/-- The fields of `struct Standard_Button` that `Button_Handler` uses (`show_` is the
field `show`, `by_` the field `by`). -/
structure Standard_Button where
  enabled : Nat
  show_ : Nat
  bx : Nat
  by_ : Nat
  bw : Nat
  bh : Nat
  label : String

/-- The fields of `struct Label` that `Button_Handler` uses (`show_` is the field
`show`). -/
structure Label where
  show_ : Nat
  x : Nat
  y : Nat
  w : Nat
  h : Nat

/-- The fields of `struct Frequency_Display` that `Button_Handler` uses. -/
structure Frequency_Display where
  bx : Nat
  by_ : Nat
  bw : Nat
  bh : Nat

/-- The variables of the program that `Button_Handler` reads or writes.
`Sp_Parms_Custom_spect_wf_style i` is `Sp_Parms_Custom[i].spect_wf_style`. -/
structure Tables where
  std_btn : Btn → Standard_Button
  labels : Lbl → Label
  disp_Freq : Nat → Frequency_Display
  popup : Nat
  spectrum_preset : Int
  spectrum_wf_style : Int
  Sp_Parms_Custom_spect_wf_style : Int → Int

/-- The calls that `Button_Handler` makes, in order.  `tft_fillRect s` is the call that
blacks out the rectangle of `Sp_Parms_Def[s]`. -/
inductive BtnCall where
  | Serial_print (s : String)
  | Serial_print_int (n : Int)
  | Serial_println_int (n : Int)
  | popup_timer_reset
  | setMode (n : Int) | Filter (n : Int) | Rate (n : Int) | AGC | Ant | Mute | Menu | VFO_AB
  | Atten (n : Int) | Preamp (n : Int) | RIT | XIT | Split | Xvtr | ATU | Fine | Xmit | NB | NR
  | Enet | Spot | Notch | BandUp | BandDn | Band | Display
  | displayRefresh
  | tft_fillRect (s : Int)
  | drawSpectrumFrame (n : Int)
  | Spectrum_Parm_Generator (n : Int)
  deriving DecidableEq

/-- The test `(x > bx && x < bx + bw) && (y > by && y < by + bh)` on the `int16_t x` and
the `uint16_t y`, all operands promoted to `int`. -/
def inRect (x : Int) (y : Nat) (bx by_ bw bh : Nat) : Prop :=
  (x > bx ∧ x < (bx : Int) + bw) ∧ ((y : Int) > by_ ∧ (y : Int) < (by_ : Int) + bh)

instance (x : Int) (y bx by_ bw bh : Nat) : Decidable (inRect x y bx by_ bw bh) := by
  unfold inRect; infer_instance

/-- A standard button: `if (inside) if (ptr->show) control();`. -/
def onButton (x : Int) (y : Nat) (b : Standard_Button) (control : BtnCall) : List BtnCall :=
  if inRect x y b.bx b.by_ b.bw b.bh then (if b.show_ ≠ 0 then [control] else []) else []

/-- A label: `if (inside) if (pLabel->show) control();`. -/
def onLabel (x : Int) (y : Nat) (l : Label) (control : BtnCall) : List BtnCall :=
  if inRect x y l.x l.y l.w l.h then (if l.show_ ≠ 0 then [control] else []) else []

/-- A frequency display area: `if (inside) VFO_AB();`. -/
def onFrequency_Display (x : Int) (y : Nat) (d : Frequency_Display) : List BtnCall :=
  if inRect x y d.bx d.by_ d.bw d.bh then [BtnCall.VFO_AB] else []

/-- Source lines 372-536: the print, the popup timer and the buttons and labels before the
FN button, in source order. -/
def Button_Handler_controls (x : Int) (y : Nat) (t : Tables) : List BtnCall :=
  [BtnCall.Serial_print "Button:", BtnCall.Serial_print_int x, BtnCall.Serial_print " ",
    BtnCall.Serial_println_int y]
  ++ (if t.popup ≠ 0 then [BtnCall.popup_timer_reset] else [])
  ++ onButton x y (t.std_btn Btn.MODE_BTN) (BtnCall.setMode 1)
  ++ onLabel x y (t.labels Lbl.MODE_LBL) (BtnCall.setMode 1)
  ++ onButton x y (t.std_btn Btn.FILTER_BTN) (BtnCall.Filter 0)
  ++ onLabel x y (t.labels Lbl.FILTER_LBL) (BtnCall.Filter 0)
  ++ onButton x y (t.std_btn Btn.RATE_BTN) (BtnCall.Rate 0)
  ++ onLabel x y (t.labels Lbl.RATE_LBL) (BtnCall.Rate 0)
  ++ onButton x y (t.std_btn Btn.AGC_BTN) BtnCall.AGC
  ++ onLabel x y (t.labels Lbl.AGC_LBL) BtnCall.AGC
  ++ onButton x y (t.std_btn Btn.ANT_BTN) BtnCall.Ant
  ++ onLabel x y (t.labels Lbl.ANT_LBL) BtnCall.Ant
  ++ onButton x y (t.std_btn Btn.MUTE_BTN) BtnCall.Mute
  ++ onButton x y (t.std_btn Btn.MENU_BTN) BtnCall.Menu
  ++ onButton x y (t.std_btn Btn.VFO_AB_BTN) BtnCall.VFO_AB
  ++ onFrequency_Display x y (t.disp_Freq 0)
  ++ onFrequency_Display x y (t.disp_Freq 2)
  ++ onButton x y (t.std_btn Btn.ATTEN_BTN) (BtnCall.Atten 2)
  ++ onButton x y (t.std_btn Btn.PREAMP_BTN) (BtnCall.Preamp 2)
  ++ onButton x y (t.std_btn Btn.RIT_BTN) BtnCall.RIT
  ++ onButton x y (t.std_btn Btn.XIT_BTN) BtnCall.XIT
  ++ onButton x y (t.std_btn Btn.SPLIT_BTN) BtnCall.Split
  ++ onButton x y (t.std_btn Btn.XVTR_BTN) BtnCall.Xvtr
  ++ onButton x y (t.std_btn Btn.ATU_BTN) BtnCall.ATU
  ++ onButton x y (t.std_btn Btn.FINE_BTN) BtnCall.Fine
  ++ onButton x y (t.std_btn Btn.XMIT_BTN) BtnCall.Xmit
  ++ onButton x y (t.std_btn Btn.NB_BTN) BtnCall.NB
  ++ onButton x y (t.std_btn Btn.NR_BTN) BtnCall.NR
  ++ onButton x y (t.std_btn Btn.ENET_BTN) BtnCall.Enet
  ++ onButton x y (t.std_btn Btn.SPOT_BTN) BtnCall.Spot
  ++ onButton x y (t.std_btn Btn.NOTCH_BTN) BtnCall.Notch
  ++ onButton x y (t.std_btn Btn.BANDUP_BTN) BtnCall.BandUp
  ++ onButton x y (t.std_btn Btn.BANDDN_BTN) BtnCall.BandDn
  ++ onButton x y (t.std_btn Btn.BAND_BTN) BtnCall.Band
  ++ onButton x y (t.std_btn Btn.DISPLAY_BTN) BtnCall.Display

/-- The buttons of panel 1, in the order of the assignments of the source. -/
def panel1 : List Btn :=
  [Btn.MODE_BTN, Btn.FILTER_BTN, Btn.ATTEN_BTN, Btn.PREAMP_BTN, Btn.RATE_BTN, Btn.BAND_BTN]

/-- The buttons of panel 2. -/
def panel2 : List Btn :=
  [Btn.NB_BTN, Btn.NR_BTN, Btn.SPOT_BTN, Btn.NOTCH_BTN, Btn.AGC_BTN, Btn.MUTE_BTN]

/-- The buttons of panel 3. -/
def panel3 : List Btn :=
  [Btn.MENU_BTN, Btn.ANT_BTN, Btn.ATU_BTN, Btn.XMIT_BTN, Btn.BANDDN_BTN, Btn.BANDUP_BTN]

/-- The buttons of panel 4. -/
def panel4 : List Btn :=
  [Btn.RIT_BTN, Btn.XIT_BTN, Btn.VFO_AB_BTN, Btn.FINE_BTN, Btn.DISPLAY_BTN, Btn.SPLIT_BTN]

/-- The assignment `std_btn[b].show = v`. -/
def setShow (std : Btn → Standard_Button) (b : Btn) (v : Nat) : Btn → Standard_Button :=
  Function.update std b { std b with show_ := v }

/-- The assignments `std_btn[b].show = v` for the buttons of one panel, in order. -/
def setPanel (v : Nat) (panel : List Btn) (std : Btn → Standard_Button) : Btn → Standard_Button :=
  panel.foldl (fun t b => setShow t b v) std

/-- One branch of source lines 548-676: the label of the FN button is overwritten and the
`show` flags of the four panels are assigned. -/
def showPanels (label : String) (v1 v2 v3 v4 : Nat) (std : Btn → Standard_Button) :
    Btn → Standard_Button :=
  setPanel v4 panel4 (setPanel v3 panel3 (setPanel v2 panel2 (setPanel v1 panel1
    (Function.update std Btn.FN_BTN { std Btn.FN_BTN with label := label }))))

/-- Source lines 370-712: `void Button_Handler(int16_t x, uint16_t y)`. -/
def Button_Handler (PANEL_ROWS PRESETS : Int) (x : Int) (y : Nat) (t : Tables) :
    Tables × List BtnCall :=
  let fn := t.std_btn Btn.FN_BTN
  if inRect x y fn.bx fn.by_ fn.bw fn.bh then
    let enabled := if ((fn.enabled + 1 : Nat) : Int) > PANEL_ROWS - 1 then 2 else fn.enabled + 1
    let std := Function.update t.std_btn Btn.FN_BTN { fn with enabled := enabled }
    let std' :=
      if enabled = 3 then showPanels "Fn 2" OFF ON OFF OFF std
      else if enabled = 4 then showPanels "Fn 3" OFF OFF ON OFF std
      else if enabled = 5 then showPanels "Fn 4" OFF OFF OFF ON std
      else showPanels "Fn 1" ON OFF OFF OFF std
    ({ t with std_btn := std' },
      Button_Handler_controls x y t
        ++ [BtnCall.displayRefresh, BtnCall.Serial_print "Fn Pressed ",
            BtnCall.Serial_println_int enabled])
  else if (x > 700 ∧ x < 800) ∧ (y > 300 ∧ y < 400) then
    let s := t.spectrum_preset % 256
    let preset :=
      if toInt16 (t.spectrum_preset + 1) > PRESETS - 1 then 0 else toInt16 (t.spectrum_preset + 1)
    ({ t with
        spectrum_preset := preset
        spectrum_wf_style := t.Sp_Parms_Custom_spect_wf_style preset },
      Button_Handler_controls x y t
        ++ [BtnCall.tft_fillRect s, BtnCall.drawSpectrumFrame preset, BtnCall.displayRefresh,
            BtnCall.Spectrum_Parm_Generator preset])
  else
    (t, Button_Handler_controls x y t)

/-- The panel that is shown for a value of the FN button's `enabled`. -/
def shownPanel (enabled : Nat) : List Btn :=
  if enabled = 3 then panel2 else if enabled = 4 then panel3
  else if enabled = 5 then panel4 else panel1

/-- A button table for examples: every button is a 100 by 60 rectangle at `(0, 400)`
except the FN button, at `(700, 400)`; `show` and `enabled` as given. -/
def exampleTables (show_ enabled : Nat) : Tables :=
  { std_btn := fun b =>
      { enabled := enabled, show_ := show_, bx := if b = Btn.FN_BTN then 700 else 0,
        by_ := 400, bw := 100, bh := 60, label := "" }
    labels := fun _ => { show_ := show_, x := 0, y := 0, w := 100, h := 30 }
    disp_Freq := fun _ => { bx := 200, by_ := 0, bw := 300, bh := 60 }
    popup := 0
    spectrum_preset := 0
    spectrum_wf_style := 0
    Sp_Parms_Custom_spect_wf_style := fun _ => 0 }

/-! ## Basic facts about the embedding -/

theorem toInt16_of_small (z : Int) (h1 : -32768 ≤ z) (h2 : z < 32768) : toInt16 z = z := by
  unfold toInt16; omega

theorem abs_eq_natAbs (z : Int) : abs z = z.natAbs := by
  unfold abs; split <;> omega

theorem run_append (s : State) (l1 l2 : List Poll) :
    run s (l1 ++ l2) = ((run (run s l1).1 l2).1, (run s l1).2 ++ (run (run s l1).1 l2).2) := by
  induction l1 generalizing s with
  | nil => simp [run]
  | cons p ps ih => simp [run, ih, List.append_assoc]

theorem set2_apply {α : Type} (a : Nat → Nat → α) (i j : Nat) (v : α) (i' j' : Nat) :
    set2 a i j v i' j' = if i' = i ∧ j' = j then v else a i' j' := rfl

theorem run_cons (s : State) (p : Poll) (ps : List Poll) :
    run s (p :: ps) = ((run (Touch s p).1 ps).1, (Touch s p).2 ++ (run (Touch s p).1 ps).2) := rfl

theorem run_single (s : State) (p : Poll) : run s [p] = Touch s p := by
  simp [run]

theorem handlerCalls_append (t1 t2 : List Call) :
    handlerCalls (t1 ++ t2) = handlerCalls t1 ++ handlerCalls t2 := by
  simp [handlerCalls]

theorem actions_append (t1 t2 : List Call) :
    actions (t1 ++ t2) = actions t1 ++ actions t2 := by
  simp [actions]

theorem actions_debugStart (n : Nat) (c : Nat → Nat → Nat) : actions (debugStart n c) = [] := by
  unfold actions debugStart
  rw [List.filter_eq_nil_iff]
  intro a ha
  rw [List.mem_flatMap] at ha
  obtain ⟨i, _, hi⟩ := ha
  simp at hi
  rcases hi with h | h | h | h | h | h <;> subst h <;> simp [Call.isDiagnostic]

theorem handlerCalls_debugStart (n : Nat) (c : Nat → Nat → Nat) :
    handlerCalls (debugStart n c) = [] := by
  unfold handlerCalls debugStart
  rw [List.filter_eq_nil_iff]
  intro a ha
  rw [List.mem_flatMap] at ha
  obtain ⟨i, _, hi⟩ := ha
  simp at hi
  rcases hi with h | h | h | h | h | h <;> subst h <;> simp [Call.isHandler]

theorem Gesture_Handler_touch_evt (g : Nat) (s : State) :
    (Gesture_Handler g s).1.touch_evt = s.touch_evt
      ∧ (Gesture_Handler g s).1.previous_touch = s.previous_touch := by
  unfold Gesture_Handler
  simp only []
  split_ifs <;> simp

theorem handlerCalls_Gesture_Handler (g : Nat) (s : State) :
    handlerCalls (Gesture_Handler g s).2 = [] := by
  unfold Gesture_Handler handlerCalls
  simp only []
  split_ifs <;> simp [Call.isHandler]

theorem actions_cons_Gesture_Handler (g : Nat) (t : List Call) :
    actions (Call.Gesture_Handler g :: t) = Call.Gesture_Handler g :: actions t := rfl

/-- The swipe branch of `Gesture_Handler` (source lines 232-281): one action, chosen
from the distances of touch point 0. -/
theorem actions_Gesture_Handler_one (s : State) :
    actions (Gesture_Handler 1 s).2 =
      [if abs (s.touch_evt.distance 0 1) > abs (s.touch_evt.distance 0 0) then
          (if s.touch_evt.distance 0 1 > 0 then Call.changeBands (-1) else Call.changeBands 1)
        else
          (if s.touch_evt.distance 0 0 < 0 then Call.Rate (-1) else Call.Rate 1)] := by
  unfold Gesture_Handler
  simp only []
  split_ifs <;> simp_all [actions, Call.isDiagnostic]

/-- STATE 2: a press while nothing is pending stores the coordinates and the count. -/
theorem Touch_press (s : State) (p : Poll) (n : Nat) (hs : s.previous_touch = 0)
    (hp : p.isPress n) :
    Touch s p =
      ({ s with
          previous_touch := n
          touch_evt := { s.touch_evt with
            start_coordinates := p.getTScoordinates
            last_coordinates := p.getTScoordinates } },
        debugStart n p.getTScoordinates ++ [Call.gesture_timer_reset]) := by
  obtain ⟨h1, h2, h3⟩ := hp
  subst h2
  simp [Touch, h1, hs, h3]

/-- STATE 3 without timeout: only `last_coordinates` is refreshed. -/
theorem Touch_tracking (s : State) (p : Poll) (hs : s.previous_touch ≠ 0)
    (hp : p.isTracking) :
    Touch s p =
      ({ s with touch_evt := { s.touch_evt with last_coordinates := p.getTScoordinates } }, []) := by
  obtain ⟨h1, h2, h3⟩ := hp
  simp [Touch, h1, hs, h2, h3]

/-- STATE 3 with timeout: the pending session is dropped. -/
theorem Touch_timeout (s : State) (p : Poll) (hs : s.previous_touch ≠ 0)
    (hp : p.isTimeout) :
    Touch s p = ({ s with previous_touch := 0 }, [Call.Serial_println "Touch Timer expired"]) := by
  obtain ⟨h1, h2, h3⟩ := hp
  simp [Touch, h1, hs, h2, h3]

/-- STATE 4: a lift with a pending session runs the classification. -/
theorem Touch_lift (s : State) (p : Poll) (hs : s.previous_touch ≠ 0) (hp : p.isLift) :
    Touch s p = Touch_lifted s p := by
  obtain ⟨h1, h2⟩ := hp
  simp [Touch, h1, hs, h2]

/-- Tracking polls keep the session: count, start coordinates, distances and settings
stay, and nothing is called. -/
theorem run_tracking (tracking : List Poll) (s : State) (hs : s.previous_touch ≠ 0)
    (htrack : ∀ q ∈ tracking, q.isTracking) :
    (run s tracking).2 = []
      ∧ (run s tracking).1.previous_touch = s.previous_touch
      ∧ (run s tracking).1.touch_evt.start_coordinates = s.touch_evt.start_coordinates
      ∧ (run s tracking).1.touch_evt.distance = s.touch_evt.distance
      ∧ (run s tracking).1.user_Profile = s.user_Profile
      ∧ (run s tracking).1.spkr_Vol_last = s.spkr_Vol_last := by
  induction tracking generalizing s with
  | nil => simp [run]
  | cons q qs ih =>
    have hq : q.isTracking := htrack q (List.mem_cons_self _ _)
    have hqs : ∀ r ∈ qs, r.isTracking := fun r hr => htrack r (List.mem_cons_of_mem _ hr)
    have hT := Touch_tracking s q hs hq
    have := ih (Touch s q).1 (by rw [hT]; exact hs) hqs
    simp only [run]
    rw [hT] at this ⊢
    simpa using this

/-- The distances of touch point 0 that STATE 4 stores before it classifies. -/
theorem Touch_lifted_trace (s : State) (p : Poll) :
    (Touch_lifted s p).2 =
      if s.previous_touch = 1
          ∧ abs (toInt16 ((p.getTScoordinates 0 0 : Int) - s.touch_evt.start_coordinates 0 0)) < 40
          ∧ abs (toInt16 ((p.getTScoordinates 0 1 : Int) - s.touch_evt.start_coordinates 0 1)) < 40
      then [Call.Button_Handler (s.touch_evt.start_coordinates 0 0) (s.touch_evt.start_coordinates 0 1)]
      else Call.Gesture_Handler s.previous_touch ::
        (Gesture_Handler s.previous_touch
          { s with touch_evt := { s.touch_evt with
              last_coordinates := p.getTScoordinates
              distance :=
                if s.previous_touch = 1 then
                  set2 (set2 (set2 (set2 s.touch_evt.distance 0 0
                    (toInt16 ((p.getTScoordinates 0 0 : Int) - s.touch_evt.start_coordinates 0 0))) 0 1
                    (toInt16 ((p.getTScoordinates 0 1 : Int) - s.touch_evt.start_coordinates 0 1))) 1 0 0) 1 1 0
                else
                  set2 (set2 (set2 (set2 s.touch_evt.distance 0 0
                    (toInt16 ((p.getTScoordinates 0 0 : Int) - s.touch_evt.start_coordinates 0 0))) 0 1
                    (toInt16 ((p.getTScoordinates 0 1 : Int) - s.touch_evt.start_coordinates 0 1))) 1 0
                    (toInt16 ((p.getTScoordinates 1 0 : Int) - s.touch_evt.start_coordinates 1 0))) 1 1
                    (toInt16 ((p.getTScoordinates 1 1 : Int) - s.touch_evt.start_coordinates 1 1)) } }).2 := by
  unfold Touch_lifted
  by_cases h1 : s.previous_touch = 1
  · simp only [h1, BUTTON_TOUCH]
    split_ifs <;> simp_all [set2_apply]
  · simp [h1, BUTTON_TOUCH]

/-- A press followed by tracking polls: nothing but diagnostics so far, and the session
holds the count and the coordinates of the press. -/
theorem run_press_tracking (s : State) (press : Poll) (tracking : List Poll) (n : Nat)
    (hs : s.previous_touch = 0) (hpress : press.isPress n)
    (htrack : ∀ q ∈ tracking, q.isTracking) :
    actions (run s (press :: tracking)).2 = []
      ∧ (run s (press :: tracking)).1.previous_touch = n
      ∧ (run s (press :: tracking)).1.touch_evt.start_coordinates = press.getTScoordinates := by
  have hT := Touch_press s press n hs hpress
  have hn : n ≠ 0 := hpress.2.2
  have hr := run_tracking tracking (Touch s press).1 (by rw [hT]; exact hn) htrack
  rw [run_cons]
  rw [hT] at hr ⊢
  obtain ⟨h1, h2, h3, -⟩ := hr
  refine ⟨?_, h2, h3⟩
  simp only [h1, List.append_nil, actions_append, actions_debugStart]
  simp [actions, Call.isDiagnostic]

/-- C1: a single-touch session (press with one touch while nothing is pending, tracking
polls without timeout, lift) whose lift coordinates of point 0 are within 40 of the start
coordinates on both axes makes exactly one call, `Button_Handler` with the start
coordinates of point 0, which are those of the press, whatever the tracking polls report;
`Gesture_Handler` and the actions are not called. -/
theorem C1_button_at_start_coordinates (s : State) (press lift : Poll) (tracking : List Poll)
    (hs : s.previous_touch = 0) (hpress : press.isPress 1)
    (htrack : ∀ q ∈ tracking, q.isTracking) (hlift : lift.isLift)
    (hdx : ((lift.getTScoordinates 0 0 : Int) - press.getTScoordinates 0 0).natAbs < 40)
    (hdy : ((lift.getTScoordinates 0 1 : Int) - press.getTScoordinates 0 1).natAbs < 40) :
    actions (run s (press :: tracking ++ [lift])).2 =
        [Call.Button_Handler
          ((run s (press :: tracking)).1.touch_evt.start_coordinates 0 0)
          ((run s (press :: tracking)).1.touch_evt.start_coordinates 0 1)]
      ∧ (run s (press :: tracking)).1.touch_evt.start_coordinates 0 0 = press.getTScoordinates 0 0
      ∧ (run s (press :: tracking)).1.touch_evt.start_coordinates 0 1 = press.getTScoordinates 0 1 := by
  obtain ⟨ha, hp, hc⟩ := run_press_tracking s press tracking 1 hs hpress htrack
  refine ⟨?_, by rw [hc], by rw [hc]⟩
  have happ : press :: tracking ++ [lift] = (press :: tracking) ++ [lift] := rfl
  rw [happ, run_append, run_single]
  simp only [actions_append, ha, List.nil_append]
  rw [Touch_lift _ lift (by rw [hp]; decide) hlift, Touch_lifted_trace, hc]
  have hx : abs (toInt16 ((lift.getTScoordinates 0 0 : Int) - press.getTScoordinates 0 0)) < 40 := by
    rw [abs_eq_natAbs]; unfold toInt16; omega
  have hy : abs (toInt16 ((lift.getTScoordinates 0 1 : Int) - press.getTScoordinates 0 1)) < 40 := by
    rw [abs_eq_natAbs]; unfold toInt16; omega
  rw [if_pos ⟨hp, hx, hy⟩]
  simp [actions, Call.isDiagnostic]

/-- C1, the example of the specification: press at (100,100), one tracking poll at
(105,102), lift at (105,102) gives `Button_Handler(100,100)`. -/
theorem C1_button_at_start_coordinates_witness :
    actions (run (initState 0 fun _ => 0)
        [touchPoll 1 100 100 0 0 false, touchPoll 1 105 102 0 0 false,
          touchPoll 0 105 102 0 0 false]).2 = [Call.Button_Handler 100 100] := by
  have h := C1_button_at_start_coordinates (initState 0 fun _ => 0)
    (touchPoll 1 100 100 0 0 false) (touchPoll 0 105 102 0 0 false)
    [touchPoll 1 105 102 0 0 false] rfl (by decide) (by decide) (by decide) (by decide) (by decide)
  obtain ⟨h1, h2, h3⟩ := h
  rw [h2, h3] at h1
  exact h1

/-- C2: a single-touch session that ends in a lift with `|dx| >= 40` or `|dy| >= 40`
(`dx`, `dy` the `int16_t` distances of point 0) calls `Gesture_Handler(1)`, not
`Button_Handler`, and exactly one swipe action: vertical when `|dy| > |dx|`
(`changeBands(-1)` for `dy > 0`, else `changeBands(1)`), horizontal when `|dy| <= |dx|`
(`Rate(-1)` for `dx < 0`, else `Rate(1)`). -/
theorem C2_swipe_selection (s : State) (press lift : Poll) (tracking : List Poll) (dx dy : Int)
    (hs : s.previous_touch = 0) (hpress : press.isPress 1)
    (htrack : ∀ q ∈ tracking, q.isTracking) (hlift : lift.isLift)
    (hdx : dx = toInt16 ((lift.getTScoordinates 0 0 : Int) - press.getTScoordinates 0 0))
    (hdy : dy = toInt16 ((lift.getTScoordinates 0 1 : Int) - press.getTScoordinates 0 1))
    (hfar : 40 ≤ abs dx ∨ 40 ≤ abs dy) :
    actions (run s (press :: tracking ++ [lift])).2 =
      [Call.Gesture_Handler 1,
        if abs dy > abs dx then
          (if dy > 0 then Call.changeBands (-1) else Call.changeBands 1)
        else
          (if dx < 0 then Call.Rate (-1) else Call.Rate 1)] := by
  obtain ⟨ha, hp, hc⟩ := run_press_tracking s press tracking 1 hs hpress htrack
  have happ : press :: tracking ++ [lift] = (press :: tracking) ++ [lift] := rfl
  rw [happ, run_append, run_single]
  simp only [actions_append, ha, List.nil_append]
  rw [Touch_lift _ lift (by rw [hp]; decide) hlift, Touch_lifted_trace, hc, ← hdx, ← hdy, hp]
  have hnot : ¬ (1 = 1 ∧ abs dx < 40 ∧ abs dy < 40) := by
    rintro ⟨-, h1, h2⟩
    rcases hfar with h | h <;> omega
  rw [if_neg hnot, actions_cons_Gesture_Handler, actions_Gesture_Handler_one]
  simp [set2_apply]

/-- C2 at a concrete session: press at (100,100), lift at (60,140), a tie `|dx| = |dy| = 40`
with `dx < 0`, is the horizontal swipe left. -/
theorem C2_swipe_selection_witness :
    actions (run (initState 0 fun _ => 0)
        [touchPoll 1 100 100 0 0 false, touchPoll 1 80 120 0 0 false,
          touchPoll 0 60 140 0 0 false]).2 = [Call.Gesture_Handler 1, Call.Rate (-1)] :=
  (C2_swipe_selection (initState 0 fun _ => 0)
    (touchPoll 1 100 100 0 0 false) (touchPoll 0 60 140 0 0 false)
    [touchPoll 1 80 120 0 0 false] (-40) 40 rfl (by decide) (by decide) (by decide)
    (by decide) (by decide) (by decide)).trans (by simp [abs])

/-- C3: `Touch()` calls a handler exactly on the finger-lift transition (touch event, no
touch point, session pending), where it makes exactly one handler call, either
`Button_Handler` or `Gesture_Handler`; on every other poll it calls neither. -/
theorem C3_handler_only_on_lift (s : State) (p : Poll) :
    (liftTransition s p ∧
        ((∃ x y, handlerCalls (Touch s p).2 = [Call.Button_Handler x y])
          ∨ (∃ g, handlerCalls (Touch s p).2 = [Call.Gesture_Handler g])))
      ∨ (¬ liftTransition s p ∧ handlerCalls (Touch s p).2 = []) := by
  by_cases hl : liftTransition s p
  · left
    refine ⟨hl, ?_⟩
    obtain ⟨h1, h2, h3⟩ := hl
    rw [Touch_lift s p h3 ⟨h1, h2⟩, Touch_lifted_trace]
    by_cases hb : s.previous_touch = 1
        ∧ abs (toInt16 ((p.getTScoordinates 0 0 : Int) - s.touch_evt.start_coordinates 0 0)) < 40
        ∧ abs (toInt16 ((p.getTScoordinates 0 1 : Int) - s.touch_evt.start_coordinates 0 1)) < 40
    · left
      rw [if_pos hb]
      exact ⟨_, _, rfl⟩
    · right
      rw [if_neg hb]
      refine ⟨s.previous_touch, ?_⟩
      have := handlerCalls_Gesture_Handler
      simp only [handlerCalls] at this ⊢
      rw [List.filter_cons_of_pos (by simp [Call.isHandler]), this]
  · right
    refine ⟨hl, ?_⟩
    unfold liftTransition at hl
    by_cases ht : p.touched = true
    · by_cases hc : p.getTouches = 0
      · have h0 : s.previous_touch = 0 := by
          by_contra h; exact hl ⟨ht, hc, h⟩
        simp [Touch, ht, hc, h0, handlerCalls]
      · by_cases h0 : s.previous_touch = 0
        · rw [Touch_press s p p.getTouches h0 ⟨ht, rfl, hc⟩]
          simp only [handlerCalls_append, handlerCalls_debugStart]
          rfl
        · cases he : p.timer_expired
          · rw [show Touch s p = _ from Touch_tracking s p h0 ⟨ht, hc, he⟩]
            rfl
          · rw [show Touch s p = _ from Touch_timeout s p h0 ⟨ht, hc, he⟩]
            rfl
    · simp [Touch, ht, handlerCalls]

/-- The pinch branch of `Gesture_Handler` (source lines 283-308) spelled out. -/
theorem Gesture_Handler_two (s : State) :
    Gesture_Handler 2 s =
      (s, (if dist_start s - dist_end s > 200 then [Call.Set_Spectrum_Scale (-1)] else [])
        ++ (if dist_end s - dist_start s > 200 then [Call.Set_Spectrum_Scale 1] else [])
        ++ (if dist_end s - dist_start s ≤ 200
              ∧ abs (toInt16 (s.touch_evt.start_coordinates 0 0)
                  - toInt16 (s.touch_evt.last_coordinates 0 0)) < 200
              ∧ abs (toInt16 (s.touch_evt.start_coordinates 0 1)
                  - toInt16 (s.touch_evt.last_coordinates 0 1)) > 200 then
            [Call.Serial_println "Volume UP"]
          else if dist_start s - dist_end s ≤ 200 then
            [Call.Serial_println "Volume DOWN"]
          else [])) := by
  simp [Gesture_Handler]

/-- C4: in `Gesture_Handler(2)` pinch-in (`Set_Spectrum_Scale(-1)`) is invoked exactly when
`dist_start - dist_end > 200`, pinch-out (`Set_Spectrum_Scale(1)`) exactly when
`dist_end - dist_start > 200`, and never both. -/
theorem C4_pinch_iff (s : State) :
    (Call.Set_Spectrum_Scale (-1) ∈ (Gesture_Handler 2 s).2 ↔ dist_start s - dist_end s > 200)
      ∧ (Call.Set_Spectrum_Scale 1 ∈ (Gesture_Handler 2 s).2 ↔ dist_end s - dist_start s > 200)
      ∧ ¬ (Call.Set_Spectrum_Scale (-1) ∈ (Gesture_Handler 2 s).2
            ∧ Call.Set_Spectrum_Scale 1 ∈ (Gesture_Handler 2 s).2) := by
  have hin : Call.Set_Spectrum_Scale (-1) ∈ (Gesture_Handler 2 s).2
      ↔ dist_start s - dist_end s > 200 := by
    rw [Gesture_Handler_two]
    simp only [List.mem_append]
    split_ifs <;> simp_all
  have hout : Call.Set_Spectrum_Scale 1 ∈ (Gesture_Handler 2 s).2
      ↔ dist_end s - dist_start s > 200 := by
    rw [Gesture_Handler_two]
    simp only [List.mem_append]
    split_ifs <;> simp_all
  refine ⟨hin, hout, ?_⟩
  rw [hin, hout]
  omega

/-- C5, a session against the claim: two fingers start at (0,0) and (600,0) and are lifted
at (100,250) and (200,250).  The inter-point distance shrinks from 600 to 100, so pinch-in
is triggered, and the same call of `Gesture_Handler(2)` also takes the "Volume UP" branch. -/
theorem C5_counterexample :
    actions (run (initState 0 fun _ => 0)
        [touchPoll 2 0 0 600 0 false, touchPoll 0 100 250 200 250 false]).2
        = [Call.Gesture_Handler 2, Call.Set_Spectrum_Scale (-1)]
      ∧ Call.Serial_println "Volume UP" ∈ (run (initState 0 fun _ => 0)
        [touchPoll 2 0 0 600 0 false, touchPoll 0 100 250 200 250 false]).2 := by
  have h600 : Nat.sqrt 360000 = 600 := Nat.sqrt_eq 600
  have h100 : Nat.sqrt 10000 = 100 := Nat.sqrt_eq 100
  have hT : (run (initState 0 fun _ => 0)
        [touchPoll 2 0 0 600 0 false, touchPoll 0 100 250 200 250 false]).2
      = debugStart 2 (points 0 0 600 0) ++ [Call.gesture_timer_reset]
        ++ [Call.Gesture_Handler 2, Call.Set_Spectrum_Scale (-1), Call.Serial_println "Volume UP"] := by
    rw [run_cons, run_single,
      Touch_press (initState 0 fun _ => 0) (touchPoll 2 0 0 600 0 false) 2 rfl (by decide),
      Touch_lift _ _ (by decide) (by decide), Touch_lifted_trace, Gesture_Handler_two]
    simp [dist_start, dist_end, toInt16, points, touchPoll, abs, h600, h100]
  rw [hT]
  constructor
  · simp only [actions_append, actions_debugStart]
    rfl
  · simp

/-- C5 as amended: in `Gesture_Handler(2)` the "Volume UP" branch is taken only when
pinch-out was not triggered and the "Volume DOWN" branch only when pinch-in was not
triggered; no call reports both pinch-out and "Volume UP", nor both pinch-in and
"Volume DOWN". -/
theorem C5_volume_guards (s : State) :
    (Call.Serial_println "Volume UP" ∈ (Gesture_Handler 2 s).2 → dist_end s - dist_start s ≤ 200)
      ∧ (Call.Serial_println "Volume DOWN" ∈ (Gesture_Handler 2 s).2 →
          dist_start s - dist_end s ≤ 200)
      ∧ ¬ (Call.Serial_println "Volume UP" ∈ (Gesture_Handler 2 s).2
            ∧ Call.Set_Spectrum_Scale 1 ∈ (Gesture_Handler 2 s).2)
      ∧ ¬ (Call.Serial_println "Volume DOWN" ∈ (Gesture_Handler 2 s).2
            ∧ Call.Set_Spectrum_Scale (-1) ∈ (Gesture_Handler 2 s).2) := by
  have hup : Call.Serial_println "Volume UP" ∈ (Gesture_Handler 2 s).2 →
      dist_end s - dist_start s ≤ 200 := by
    rw [Gesture_Handler_two]
    simp only [List.mem_append]
    split_ifs <;> simp_all
  have hdown : Call.Serial_println "Volume DOWN" ∈ (Gesture_Handler 2 s).2 →
      dist_start s - dist_end s ≤ 200 := by
    rw [Gesture_Handler_two]
    simp only [List.mem_append]
    split_ifs <;> simp_all
  have hin : Call.Set_Spectrum_Scale (-1) ∈ (Gesture_Handler 2 s).2 →
      dist_start s - dist_end s > 200 := by
    rw [Gesture_Handler_two]
    simp only [List.mem_append]
    split_ifs <;> simp_all
  have hout : Call.Set_Spectrum_Scale 1 ∈ (Gesture_Handler 2 s).2 →
      dist_end s - dist_start s > 200 := by
    rw [Gesture_Handler_two]
    simp only [List.mem_append]
    split_ifs <;> simp_all
  refine ⟨hup, hdown, ?_, ?_⟩
  · rintro ⟨h1, h2⟩
    have := hup h1
    have := hout h2
    omega
  · rintro ⟨h1, h2⟩
    have := hdown h1
    have := hin h2
    omega

/-- One poll keeps the distances at zero: only STATE 4 writes them, and it clears the four
entries it wrote before it returns. -/
theorem Touch_distance_zero (s : State) (p : Poll)
    (h : ∀ i j, s.touch_evt.distance i j = 0) :
    ∀ i j, (Touch s p).1.touch_evt.distance i j = 0 := by
  intro i j
  by_cases ht : p.touched = true
  · by_cases hc : p.getTouches = 0
    · by_cases h0 : s.previous_touch = 0
      · simpa [Touch, ht, hc, h0] using h i j
      · rw [Touch_lift s p h0 ⟨ht, hc⟩]
        unfold Touch_lifted
        simp only []
        split_ifs <;>
          simp only [(Gesture_Handler_touch_evt _ _).1, set2_apply] <;>
          split_ifs <;> first | rfl | exact h i j
    · by_cases h0 : s.previous_touch = 0
      · rw [Touch_press s p p.getTouches h0 ⟨ht, rfl, hc⟩]
        exact h i j
      · cases he : p.timer_expired
        · rw [Touch_tracking s p h0 ⟨ht, hc, he⟩]
          exact h i j
        · rw [Touch_timeout s p h0 ⟨ht, hc, he⟩]
          exact h i j
  · simpa [Touch, ht] using h i j

/-- In every reachable state all distances are zero. -/
theorem Reachable_distance_zero (s : State) (hr : Reachable s) :
    ∀ i j, s.touch_evt.distance i j = 0 := by
  induction hr with
  | start up sv => intro i j; rfl
  | poll s p _ ih => exact Touch_distance_zero s p ih
  | settings s up sv _ ih => exact ih

/-- C6: in a reachable state with a session pending, a poll with touch count > 0 on which
the timer has expired calls no handler and no action, sets `previous_touch` to 0, leaves
`start_coordinates` and `last_coordinates` as they are, and all distances are 0. -/
theorem C6_timeout_discards_session (s : State) (p : Poll) (hr : Reachable s)
    (hs : s.previous_touch ≠ 0) (hp : p.isTimeout) :
    actions (Touch s p).2 = []
      ∧ (Touch s p).1.previous_touch = 0
      ∧ (Touch s p).1.touch_evt.start_coordinates = s.touch_evt.start_coordinates
      ∧ (Touch s p).1.touch_evt.last_coordinates = s.touch_evt.last_coordinates
      ∧ ∀ i j, (Touch s p).1.touch_evt.distance i j = 0 := by
  rw [Touch_timeout s p hs hp]
  exact ⟨rfl, rfl, rfl, rfl, fun i j => Reachable_distance_zero s hr i j⟩

/-- C6 at a concrete input: after a press at (100,100) the timer expires with the finger
at (105,102). -/
theorem C6_timeout_discards_session_witness :
    actions (Touch (Touch (initState 0 fun _ => 0) (touchPoll 1 100 100 0 0 false)).1
        (touchPoll 1 105 102 0 0 true)).2 = []
      ∧ (Touch (Touch (initState 0 fun _ => 0) (touchPoll 1 100 100 0 0 false)).1
        (touchPoll 1 105 102 0 0 true)).1.previous_touch = 0 := by
  have h := C6_timeout_discards_session
    (Touch (initState 0 fun _ => 0) (touchPoll 1 100 100 0 0 false)).1
    (touchPoll 1 105 102 0 0 true)
    (Reachable.poll _ _ (Reachable.start 0 fun _ => 0)) (by decide) (by decide)
  exact ⟨h.1, h.2.1⟩

/-- C7, a session against the claim: one finger is pressed at (100,100) and held there; the
second poll is the one on which the timer expires.  On the third poll, the finger still
down and no poll with touch count 0 seen, a new session has started (`previous_touch` is 1
again), and the lift on the fourth poll calls `Button_Handler` for the press that timed
out. -/
theorem C7_counterexample :
    (run (initState 0 fun _ => 0)
        [touchPoll 1 100 100 0 0 false, touchPoll 1 100 100 0 0 true,
          touchPoll 1 100 100 0 0 false]).1.previous_touch = 1
      ∧ actions (run (initState 0 fun _ => 0)
        [touchPoll 1 100 100 0 0 false, touchPoll 1 100 100 0 0 true,
          touchPoll 1 100 100 0 0 false, touchPoll 0 100 100 0 0 false]).2
        = [Call.Button_Handler 100 100] := by
  constructor
  · rfl
  · decide

/-- C7 as amended: when a press is held from its first poll through the poll on which the
timer expires, no handler and no action is called up to and including that poll and
`previous_touch` is 0 after it; the next poll that reports touch count > 0 starts a new
session at once (`previous_touch` becomes that count, the start coordinates are those of
that poll), again without a handler call. -/
theorem C7_timeout_then_restart (s : State) (press expiry next : Poll) (tracking : List Poll)
    (n : Nat) (hs : s.previous_touch = 0) (hpress : press.isPress n)
    (htrack : ∀ q ∈ tracking, q.isTracking) (hexp : expiry.isTimeout)
    (hnext : next.touched = true ∧ next.getTouches ≠ 0) :
    actions (run s (press :: tracking ++ [expiry])).2 = []
      ∧ (run s (press :: tracking ++ [expiry])).1.previous_touch = 0
      ∧ (Touch (run s (press :: tracking ++ [expiry])).1 next).1.previous_touch = next.getTouches
      ∧ (Touch (run s (press :: tracking ++ [expiry])).1 next).1.touch_evt.start_coordinates
          = next.getTScoordinates
      ∧ actions (Touch (run s (press :: tracking ++ [expiry])).1 next).2 = [] := by
  obtain ⟨ha, hp, -⟩ := run_press_tracking s press tracking n hs hpress htrack
  have hn : n ≠ 0 := hpress.2.2
  have happ : press :: tracking ++ [expiry] = (press :: tracking) ++ [expiry] := rfl
  have hrun : run s (press :: tracking ++ [expiry])
      = ({ (run s (press :: tracking)).1 with previous_touch := 0 },
          (run s (press :: tracking)).2 ++ [Call.Serial_println "Touch Timer expired"]) := by
    rw [happ, run_append, run_single, Touch_timeout _ expiry (by rw [hp]; exact hn) hexp]
  have h0 : (run s (press :: tracking ++ [expiry])).1.previous_touch = 0 := by rw [hrun]
  have hT := Touch_press (run s (press :: tracking ++ [expiry])).1 next next.getTouches h0
    ⟨hnext.1, rfl, hnext.2⟩
  refine ⟨?_, h0, ?_, ?_, ?_⟩
  · rw [hrun]
    simp only [actions_append, ha, List.nil_append]
    rfl
  · rw [hT]
  · rw [hT]
  · rw [hT]
    simp only [actions_append, actions_debugStart, List.nil_append]
    rfl

/-- C7 as amended, at a concrete input: press at (100,100), a tracking poll and then the
timer expiry with the finger at (105,102), and the next poll with the finger at (300,100)
opens a session there. -/
theorem C7_timeout_then_restart_witness :
    (run (initState 0 fun _ => 0)
        [touchPoll 1 100 100 0 0 false, touchPoll 1 105 102 0 0 false,
          touchPoll 1 105 102 0 0 true]).1.previous_touch = 0
      ∧ (Touch (run (initState 0 fun _ => 0)
          [touchPoll 1 100 100 0 0 false, touchPoll 1 105 102 0 0 false,
            touchPoll 1 105 102 0 0 true]).1
          (touchPoll 1 300 100 0 0 false)).1.previous_touch = 1 := by
  have h := C7_timeout_then_restart (initState 0 fun _ => 0)
    (touchPoll 1 100 100 0 0 false) (touchPoll 1 105 102 0 0 true)
    (touchPoll 1 300 100 0 0 false) [touchPoll 1 105 102 0 0 false] 1 rfl (by decide)
    (by decide) (by decide) (by decide)
  exact ⟨h.2.1, h.2.2.1⟩

/-- C8, the code at the failing input: press at (100,100), timer expiry with the finger at
(105,102), one more poll with the finger still down at (300,100).  After the expiry poll
the start coordinates are still (100,100); after the next poll they are (300,100), equal
to the last coordinates, so the drag distance since the press began is lost. -/
theorem C8_start_coordinates_overwritten :
    (run (initState 0 fun _ => 0)
        [touchPoll 1 100 100 0 0 false, touchPoll 1 105 102 0 0 true]).1.touch_evt.start_coordinates
          0 0 = 100
      ∧ (run (initState 0 fun _ => 0)
        [touchPoll 1 100 100 0 0 false, touchPoll 1 105 102 0 0 true,
          touchPoll 1 300 100 0 0 false]).1.touch_evt.start_coordinates 0 0 = 300
      ∧ (run (initState 0 fun _ => 0)
        [touchPoll 1 100 100 0 0 false, touchPoll 1 105 102 0 0 true,
          touchPoll 1 300 100 0 0 false]).1.touch_evt.last_coordinates 0 0 = 300 := by
  refine ⟨rfl, rfl, rfl⟩

/-! ## The float arithmetic of the volume updates -/

theorem roundHalfEven_error (m : ℚ) :
    -(1 / 2) ≤ (roundHalfEven m : ℚ) - m ∧ (roundHalfEven m : ℚ) - m ≤ 1 / 2 := by
  have h1 := Int.floor_le m
  have h2 := Int.lt_floor_add_one m
  unfold roundHalfEven
  split_ifs <;> push_cast <;> constructor <;> linarith

theorem log2_eq (q : ℚ) (e : Int) (h1 : (2 : ℚ) ^ e ≤ q) (h2 : q < (2 : ℚ) ^ (e + 1)) :
    Int.log 2 q = e := by
  have hq : 0 < q := lt_of_lt_of_le (by positivity) h1
  apply le_antisymm
  · have := (Int.lt_zpow_iff_log_lt (b := 2) (by norm_num) (x := e + 1) hq).1 (by exact_mod_cast h2)
    omega
  · exact (Int.zpow_le_iff_le_log (b := 2) (by norm_num) hq).1 (by exact_mod_cast h1)

theorem roundHalfEven_eq (m : ℚ) (n : Int) (h1 : (n : ℚ) - 1 / 2 < m) (h2 : m < (n : ℚ) + 1 / 2) :
    roundHalfEven m = n := by
  have e := roundHalfEven_error m
  have : ((roundHalfEven m - n : Int) : ℚ) < 1 := by push_cast; linarith [e.1, e.2]
  have : (-1 : ℚ) < ((roundHalfEven m - n : Int) : ℚ) := by push_cast; linarith [e.1, e.2]
  have a : roundHalfEven m - n < 1 := by exact_mod_cast ‹((roundHalfEven m - n : Int) : ℚ) < 1›
  have b : -1 < roundHalfEven m - n := by exact_mod_cast this
  omega

theorem roundFloat_eval (p : Nat) (emin : Int) (q : ℚ) (e n : Int) (hq : 0 < q)
    (h1 : (2 : ℚ) ^ (e + (p - 1)) ≤ q) (h2 : q < (2 : ℚ) ^ (e + (p - 1) + 1)) (he : emin ≤ e)
    (h3 : (n : ℚ) - 1 / 2 < q / 2 ^ e) (h4 : q / 2 ^ e < (n : ℚ) + 1 / 2) :
    roundFloat p emin q = n * 2 ^ e := by
  have hl : Int.log 2 q = e + (p - 1) := log2_eq q _ h1 h2
  have hE : quantumExp p emin q = e := by
    unfold quantumExp
    rw [if_neg (not_lt.2 hq.le), hl]
    have : e + ((p : Int) - 1) - ((p : Int) - 1) = e := by ring
    rw [this]
    exact max_eq_left he
  unfold roundFloat
  rw [if_neg hq.ne', hE, roundHalfEven_eq _ n h3 h4]

theorem toDouble_two_tenths : toDouble 0.2 = 3602879701896397 / 18014398509481984 := by
  have h := roundFloat_eval 53 (-1074) 0.2 (-55) 7205759403792794 (by norm_num)
    (by norm_num [zpow_neg]) (by norm_num [zpow_neg]) (by norm_num)
    (by norm_num [zpow_neg]) (by norm_num [zpow_neg])
  unfold toDouble
  rw [h]
  norm_num [zpow_neg]

/-- The update `-= 0.2` of the float 0.5 stores 5033165/2^24 = 0.300000011920928955078125. -/
theorem volume_down_half : toFloat (toDouble (1 / 2 - toDouble 0.2)) = 5033165 / 16777216 := by
  rw [toDouble_two_tenths]
  have hx : toDouble (1 / 2 - 3602879701896397 / 18014398509481984)
      = 5404319552844595 / 18014398509481984 := by
    have h := roundFloat_eval 53 (-1074) (1 / 2 - 3602879701896397 / 18014398509481984) (-54)
      5404319552844595 (by norm_num)
      (by norm_num [zpow_neg]) (by norm_num [zpow_neg]) (by norm_num)
      (by norm_num [zpow_neg]) (by norm_num [zpow_neg])
    unfold toDouble
    rw [h]
    norm_num [zpow_neg]
  rw [hx]
  have h := roundFloat_eval 24 (-149) (5404319552844595 / 18014398509481984) (-25)
    10066330 (by norm_num)
    (by norm_num [zpow_neg]) (by norm_num [zpow_neg]) (by norm_num)
    (by norm_num [zpow_neg]) (by norm_num [zpow_neg])
  unfold toFloat
  rw [h]
  norm_num [zpow_neg]

/-- The three-finger branch of `Gesture_Handler` (source lines 309-325) spelled out. -/
theorem Gesture_Handler_three (s : State)
    (hv : abs (s.touch_evt.distance 0 1) > abs (s.touch_evt.distance 0 0)) :
    Gesture_Handler 3 s =
      if s.touch_evt.distance 0 1 > 0 then
        ({ s with spkr_Vol_last := (Function.update s.spkr_Vol_last s.user_Profile
              (toFloat (toDouble (s.spkr_Vol_last s.user_Profile - toDouble 0.2)))) },
          [Call.codec1_volume (toFloat (toDouble (s.spkr_Vol_last s.user_Profile - toDouble 0.2))),
            Call.Serial_print "3-point Volume DOWN  ",
            Call.Serial_println_float
              (toFloat (toDouble (s.spkr_Vol_last s.user_Profile - toDouble 0.2)))])
      else
        ({ s with spkr_Vol_last := (Function.update s.spkr_Vol_last s.user_Profile
              (toFloat (toDouble (s.spkr_Vol_last s.user_Profile + toDouble 0.1)))) },
          [Call.codec1_volume (toFloat (toDouble (s.spkr_Vol_last s.user_Profile + toDouble 0.1))),
            Call.Serial_print "3-point Volume UP  ",
            Call.Serial_println_float
              (toFloat (toDouble (s.spkr_Vol_last s.user_Profile + toDouble 0.1)))]) := by
  unfold Gesture_Handler
  simp only [hv]
  simp

/-- C10: for every argument other than 1, 2 and 3 `Gesture_Handler` leaves the state as it
is and makes a single call, the diagnostic print. -/
theorem C10_other_gesture_is_noop (g : Nat) (s : State) (h1 : g ≠ 1) (h2 : g ≠ 2) (h3 : g ≠ 3) :
    Gesture_Handler g s = (s, [Call.Serial_println " Gesture = 0 : Should not be here!"]) := by
  simp [Gesture_Handler, h1, h2, h3]

/-- C10 at the arguments 0, 4 and 5. -/
theorem C10_other_gesture_is_noop_witness :
    actions (Gesture_Handler 0 (classifyState 0 100 100 100 150 (1 / 2))).2 = []
      ∧ actions (Gesture_Handler 4 (classifyState 4 100 100 100 150 (1 / 2))).2 = []
      ∧ (Gesture_Handler 5 (classifyState 5 100 100 100 150 (1 / 2))).2
          = [Call.Serial_println " Gesture = 0 : Should not be here!"] := by
  refine ⟨?_, ?_, ?_⟩
  · rw [C10_other_gesture_is_noop 0 _ (by decide) (by decide) (by decide)]; rfl
  · rw [C10_other_gesture_is_noop 4 _ (by decide) (by decide) (by decide)]; rfl
  · rw [C10_other_gesture_is_noop 5 _ (by decide) (by decide) (by decide)]

/-! ## Second part: unsupported counts, the single transitions, distances -/

/-- STATE 4 classifies in the state `Touch_lifted_distances`: the trace. -/
theorem Touch_lifted_classifies (s : State) (p : Poll) :
    (Touch_lifted s p).2 =
      if s.previous_touch = 1
          ∧ abs ((Touch_lifted_distances s p).touch_evt.distance 0 0) < BUTTON_TOUCH
          ∧ abs ((Touch_lifted_distances s p).touch_evt.distance 0 1) < BUTTON_TOUCH
      then [Call.Button_Handler (s.touch_evt.start_coordinates 0 0)
              (s.touch_evt.start_coordinates 0 1)]
      else Call.Gesture_Handler s.previous_touch ::
        (Gesture_Handler s.previous_touch (Touch_lifted_distances s p)).2 := by
  unfold Touch_lifted Touch_lifted_distances
  simp only []
  split_ifs <;> rfl

/-- STATE 4 classifies in the state `Touch_lifted_distances`: the user settings after. -/
theorem Touch_lifted_settings (s : State) (p : Poll) :
    (Touch_lifted s p).1.spkr_Vol_last =
      if s.previous_touch = 1
          ∧ abs ((Touch_lifted_distances s p).touch_evt.distance 0 0) < BUTTON_TOUCH
          ∧ abs ((Touch_lifted_distances s p).touch_evt.distance 0 1) < BUTTON_TOUCH
      then s.spkr_Vol_last
      else (Gesture_Handler s.previous_touch (Touch_lifted_distances s p)).1.spkr_Vol_last := by
  unfold Touch_lifted Touch_lifted_distances
  simp only []
  split_ifs <;> rfl

/-- The entries of the distances that STATE 4 computes. -/
theorem Touch_lifted_distances_entries (s : State) (p : Poll) :
    (Touch_lifted_distances s p).touch_evt.distance 0 0
        = toInt16 ((p.getTScoordinates 0 0 : Int) - s.touch_evt.start_coordinates 0 0)
      ∧ (Touch_lifted_distances s p).touch_evt.distance 0 1
        = toInt16 ((p.getTScoordinates 0 1 : Int) - s.touch_evt.start_coordinates 0 1)
      ∧ (Touch_lifted_distances s p).touch_evt.distance 1 0
        = (if s.previous_touch = 1 then 0
            else toInt16 ((p.getTScoordinates 1 0 : Int) - s.touch_evt.start_coordinates 1 0))
      ∧ (Touch_lifted_distances s p).touch_evt.distance 1 1
        = (if s.previous_touch = 1 then 0
            else toInt16 ((p.getTScoordinates 1 1 : Int) - s.touch_evt.start_coordinates 1 1)) := by
  unfold Touch_lifted_distances
  simp only []
  split_ifs <;> simp [set2_apply]

/-- The `default` exit of `Gesture_Handler`: reached for every argument other than 1 and
2 unless it is 3 with the vertical axis dominant. -/
theorem Gesture_Handler_default (g : Nat) (s : State) (h1 : g ≠ 1) (h2 : g ≠ 2)
    (h3 : ¬ (g = 3 ∧ abs (s.touch_evt.distance 0 1) > abs (s.touch_evt.distance 0 0))) :
    Gesture_Handler g s = (s, [Call.Serial_println " Gesture = 0 : Should not be here!"]) := by
  unfold Gesture_Handler
  simp only [h1, h2, h3, if_false]

/-- A press followed by tracking polls leaves the user settings alone. -/
theorem run_press_tracking_settings (s : State) (press : Poll) (tracking : List Poll) (n : Nat)
    (hs : s.previous_touch = 0) (hpress : press.isPress n)
    (htrack : ∀ q ∈ tracking, q.isTracking) :
    (run s (press :: tracking)).1.user_Profile = s.user_Profile
      ∧ (run s (press :: tracking)).1.spkr_Vol_last = s.spkr_Vol_last := by
  have hT := Touch_press s press n hs hpress
  have hn : n ≠ 0 := hpress.2.2
  have hr := run_tracking tracking (Touch s press).1 (by rw [hT]; exact hn) htrack
  rw [run_cons]
  rw [hT] at hr ⊢
  exact ⟨hr.2.2.2.2.1, hr.2.2.2.2.2⟩

/-- C11, a session against the claim: three fingers are pressed at (100,100), (200,100),
(300,100) and lifted at (100,150), (200,150), (300,150), the volume being 1/2.  The
touch count at classification time is 3, and `codec1.volume` is called with the float
5033165/2^24 = 0.300000011920928955078125, which is also the new stored volume. -/
theorem C11_counterexample :
    actions (run (initState 0 fun _ => 1 / 2)
        [touchPoll3 3 100 100 200 100 300 100 false,
          touchPoll3 0 100 150 200 150 300 150 false]).2
        = [Call.Gesture_Handler 3, Call.codec1_volume (5033165 / 16777216)]
      ∧ (run (initState 0 fun _ => 1 / 2)
        [touchPoll3 3 100 100 200 100 300 100 false,
          touchPoll3 0 100 150 200 150 300 150 false]).1.spkr_Vol_last 0
        = 5033165 / 16777216 := by
  have hT : Touch (Touch (initState 0 fun _ => 1 / 2)
        (touchPoll3 3 100 100 200 100 300 100 false)).1
        (touchPoll3 0 100 150 200 150 300 150 false)
      = Touch_lifted (Touch (initState 0 fun _ => 1 / 2)
        (touchPoll3 3 100 100 200 100 300 100 false)).1
        (touchPoll3 0 100 150 200 150 300 150 false) :=
    Touch_lift _ _ (by decide) (by decide)
  have hpress := Touch_press (initState 0 fun _ => 1 / 2)
    (touchPoll3 3 100 100 200 100 300 100 false) 3 rfl (by decide)
  have hG := Gesture_Handler_three
    (Touch_lifted_distances
      (Touch (initState 0 fun _ => 1 / 2) (touchPoll3 3 100 100 200 100 300 100 false)).1
      (touchPoll3 0 100 150 200 150 300 150 false)) (by decide)
  rw [if_pos (by decide)] at hG
  have hval : toFloat (toDouble ((Touch_lifted_distances
      (Touch (initState 0 fun _ => 1 / 2) (touchPoll3 3 100 100 200 100 300 100 false)).1
      (touchPoll3 0 100 150 200 150 300 150 false)).spkr_Vol_last
      (Touch_lifted_distances
      (Touch (initState 0 fun _ => 1 / 2) (touchPoll3 3 100 100 200 100 300 100 false)).1
      (touchPoll3 0 100 150 200 150 300 150 false)).user_Profile - toDouble 0.2))
      = 5033165 / 16777216 := volume_down_half
  rw [hval] at hG
  have hprev : (Touch (initState 0 fun _ => 1 / 2)
      (touchPoll3 3 100 100 200 100 300 100 false)).1.previous_touch = 3 := rfl
  constructor
  · rw [run_cons, run_single, hT, Touch_lifted_classifies, if_neg (by decide), hprev, hG, hpress]
    simp only [actions_append, actions_debugStart, List.nil_append]
    rfl
  · rw [run_cons, run_single, hT, Touch_lifted_settings, if_neg (by decide), hprev, hG]
    simp [Touch_lifted_distances, Touch, touchPoll3, initState]

/-- C11 as amended: a session whose touch count at classification time is greater than 3,
or is 3 with the vertical axis not dominant (`|dy| <= |dx|` for the `int16_t` distances of
point 0), ends in one call of `Gesture_Handler` with that count, which triggers no action
(no band, rate, scale or volume call), reports the diagnostic, and leaves the stored
volumes unchanged. -/
theorem C11_unsupported_count_no_action (s : State) (press lift : Poll) (tracking : List Poll)
    (n : Nat) (dx dy : Int)
    (hs : s.previous_touch = 0) (hpress : press.isPress n)
    (htrack : ∀ q ∈ tracking, q.isTracking) (hlift : lift.isLift)
    (hdx : dx = toInt16 ((lift.getTScoordinates 0 0 : Int) - press.getTScoordinates 0 0))
    (hdy : dy = toInt16 ((lift.getTScoordinates 0 1 : Int) - press.getTScoordinates 0 1))
    (hn : 3 < n ∨ (n = 3 ∧ abs dy ≤ abs dx)) :
    actions (run s (press :: tracking ++ [lift])).2 = [Call.Gesture_Handler n]
      ∧ Call.Serial_println " Gesture = 0 : Should not be here!"
          ∈ (run s (press :: tracking ++ [lift])).2
      ∧ (run s (press :: tracking ++ [lift])).1.spkr_Vol_last = s.spkr_Vol_last := by
  obtain ⟨ha, hp, hc⟩ := run_press_tracking s press tracking n hs hpress htrack
  obtain ⟨-, hvol⟩ := run_press_tracking_settings s press tracking n hs hpress htrack
  have hn0 : n ≠ 0 := hpress.2.2
  have hn1 : n ≠ 1 := by omega
  have hn2 : n ≠ 2 := by omega
  have happ : press :: tracking ++ [lift] = (press :: tracking) ++ [lift] := rfl
  have hd := Touch_lifted_distances_entries (run s (press :: tracking)).1 lift
  rw [hc, ← hdx, ← hdy] at hd
  have h3 : ¬ (n = 3 ∧ abs ((Touch_lifted_distances (run s (press :: tracking)).1 lift).touch_evt.distance 0 1)
      > abs ((Touch_lifted_distances (run s (press :: tracking)).1 lift).touch_evt.distance 0 0)) := by
    rw [hd.1, hd.2.1]
    rintro ⟨h, h'⟩
    rcases hn with h4 | ⟨-, h4⟩ <;> omega
  have hG := Gesture_Handler_default n
    (Touch_lifted_distances (run s (press :: tracking)).1 lift) hn1 hn2 h3
  have hcond : ¬ ((run s (press :: tracking)).1.previous_touch = 1
      ∧ abs ((Touch_lifted_distances (run s (press :: tracking)).1 lift).touch_evt.distance 0 0)
          < BUTTON_TOUCH
      ∧ abs ((Touch_lifted_distances (run s (press :: tracking)).1 lift).touch_evt.distance 0 1)
          < BUTTON_TOUCH) := by
    rw [hp]; exact fun h => hn1 h.1
  rw [happ, run_append, run_single, Touch_lift _ lift (by rw [hp]; exact hn0) hlift]
  refine ⟨?_, ?_, ?_⟩
  · simp only [actions_append, ha, List.nil_append]
    rw [Touch_lifted_classifies, if_neg hcond, hp, hG]
    rfl
  · simp only [List.mem_append]
    right
    rw [Touch_lifted_classifies, if_neg hcond, hp, hG]
    simp
  · simp only []
    rw [Touch_lifted_settings, if_neg hcond, hp, hG]
    exact hvol

/-- C11 as amended, at concrete inputs: a four-finger session, and a three-finger session
that moves sideways from (100,100) to (160,100). -/
theorem C11_unsupported_count_no_action_witness :
    actions (run (initState 0 fun _ => 1 / 2)
        [touchPoll3 4 100 100 200 100 300 100 false,
          touchPoll3 0 100 150 200 150 300 150 false]).2 = [Call.Gesture_Handler 4]
      ∧ actions (run (initState 0 fun _ => 1 / 2)
        [touchPoll3 3 100 100 200 100 300 100 false,
          touchPoll3 3 130 100 230 100 330 100 false,
          touchPoll3 0 160 100 260 100 360 100 false]).2 = [Call.Gesture_Handler 3] :=
  ⟨(C11_unsupported_count_no_action (initState 0 fun _ => 1 / 2)
      (touchPoll3 4 100 100 200 100 300 100 false)
      (touchPoll3 0 100 150 200 150 300 150 false) [] 4 0 50 rfl (by decide) (by decide)
      (by decide) (by decide) (by decide) (by decide)).1,
   (C11_unsupported_count_no_action (initState 0 fun _ => 1 / 2)
      (touchPoll3 3 100 100 200 100 300 100 false)
      (touchPoll3 0 160 100 260 100 360 100 false)
      [touchPoll3 3 130 100 230 100 330 100 false] 3 60 0 rfl (by decide) (by decide)
      (by decide) (by decide) (by decide) (by decide)).1⟩

/-- C12: in a state with nothing pending, a poll with a touch event and touch count
`n > 0` stores the coordinates of that poll as both `start_coordinates` and
`last_coordinates`, sets `previous_touch` to `n`, resets the gesture timer, and calls no
handler and no action. -/
theorem C12_press_starts_session (s : State) (p : Poll) (n : Nat)
    (hs : s.previous_touch = 0) (hp : p.isPress n) :
    (Touch s p).1.touch_evt.start_coordinates = p.getTScoordinates
      ∧ (Touch s p).1.touch_evt.last_coordinates = p.getTScoordinates
      ∧ (Touch s p).1.previous_touch = n
      ∧ Call.gesture_timer_reset ∈ (Touch s p).2
      ∧ actions (Touch s p).2 = [] := by
  rw [Touch_press s p n hs hp]
  refine ⟨rfl, rfl, rfl, by simp, ?_⟩
  simp only [actions_append, actions_debugStart, List.nil_append]
  rfl

/-- C12 at a concrete input: after a button session at (100,100) a two-finger press at
(50,60), (150,160) replaces the stored coordinates. -/
theorem C12_press_starts_session_witness :
    (Touch (run (initState 0 fun _ => 0)
        [touchPoll 1 100 100 0 0 false, touchPoll 0 105 102 0 0 false]).1
        (touchPoll 2 50 60 150 160 false)).1.touch_evt.start_coordinates = points 50 60 150 160
      ∧ (Touch (run (initState 0 fun _ => 0)
        [touchPoll 1 100 100 0 0 false, touchPoll 0 105 102 0 0 false]).1
        (touchPoll 2 50 60 150 160 false)).1.previous_touch = 2 := by
  have h := C12_press_starts_session (run (initState 0 fun _ => 0)
        [touchPoll 1 100 100 0 0 false, touchPoll 0 105 102 0 0 false]).1
        (touchPoll 2 50 60 150 160 false) 2 rfl (by decide)
  exact ⟨h.1, h.2.2.1⟩

/-- C13: with a session pending, a poll with touch count > 0 on which the timer has not
expired stores the coordinates of that poll in `last_coordinates`, leaves
`start_coordinates`, the distances and `previous_touch` unchanged, and calls nothing. -/
theorem C13_tracking_refreshes_last (s : State) (p : Poll)
    (hs : s.previous_touch ≠ 0) (hp : p.isTracking) :
    (Touch s p).1.touch_evt.last_coordinates = p.getTScoordinates
      ∧ (Touch s p).1.touch_evt.start_coordinates = s.touch_evt.start_coordinates
      ∧ (Touch s p).1.touch_evt.distance = s.touch_evt.distance
      ∧ (Touch s p).1.previous_touch = s.previous_touch
      ∧ (Touch s p).2 = [] := by
  rw [Touch_tracking s p hs hp]
  exact ⟨rfl, rfl, rfl, rfl, rfl⟩

/-- C13 at a concrete input: press at (100,100), then a tracking poll at (105,102). -/
theorem C13_tracking_refreshes_last_witness :
    (Touch (Touch (initState 0 fun _ => 0) (touchPoll 1 100 100 0 0 false)).1
        (touchPoll 1 105 102 0 0 false)).1.touch_evt.last_coordinates = points 105 102 0 0
      ∧ (Touch (Touch (initState 0 fun _ => 0) (touchPoll 1 100 100 0 0 false)).1
        (touchPoll 1 105 102 0 0 false)).1.touch_evt.start_coordinates
          = (Touch (initState 0 fun _ => 0)
              (touchPoll 1 100 100 0 0 false)).1.touch_evt.start_coordinates := by
  have h := C13_tracking_refreshes_last
    (Touch (initState 0 fun _ => 0) (touchPoll 1 100 100 0 0 false)).1
    (touchPoll 1 105 102 0 0 false) (by decide) (by decide)
  exact ⟨h.1, h.2.1⟩

/-- C14: `Touch()` changes nothing and calls nothing (no timer reset, no handler) on a poll
with a touch event, touch count 0 and nothing pending, and on every poll without a touch
event, whatever `previous_touch` is. -/
theorem C14_idle_is_noop (s : State) (p : Poll)
    (h : (p.touched = true ∧ p.getTouches = 0 ∧ s.previous_touch = 0) ∨ p.touched = false) :
    Touch s p = (s, []) := by
  rcases h with ⟨h1, h2, h3⟩ | h
  · simp [Touch, h1, h2, h3]
  · simp [Touch, h]

/-- C14 at concrete inputs: an empty touch event in the start state, and a poll without
touch event (reporting touch count 0) while a session is pending. -/
theorem C14_idle_is_noop_witness :
    Touch (initState 0 fun _ => 0) (touchPoll 0 100 100 0 0 false)
        = (initState 0 fun _ => 0, [])
      ∧ Touch (Touch (initState 0 fun _ => 0) (touchPoll 1 100 100 0 0 false)).1
          { touched := false, getTouches := 0, getTScoordinates := points 200 200 0 0,
            timer_expired := true }
        = ((Touch (initState 0 fun _ => 0) (touchPoll 1 100 100 0 0 false)).1, []) :=
  ⟨C14_idle_is_noop _ _ (Or.inl (by decide)), C14_idle_is_noop _ _ (Or.inr rfl)⟩

/-- C15, a session against the claim: three fingers pressed at (100,100), (200,100),
(300,100) and lifted at (100,150), (200,150), (300,150).  The touch count of the session
is 3, not 2, and the classifier sees `distance[1] = (0, 50)`, not `(0, 0)`. -/
theorem C15_counterexample :
    (Touch (initState 0 fun _ => 0)
        (touchPoll3 3 100 100 200 100 300 100 false)).1.previous_touch = 3
      ∧ (Touch_lifted_distances
          (Touch (initState 0 fun _ => 0) (touchPoll3 3 100 100 200 100 300 100 false)).1
          (touchPoll3 0 100 150 200 150 300 150 false)).touch_evt.distance 1 1 = 50 := by
  constructor
  · rfl
  · decide

/-- C15 as amended: on a finger-lift poll, with the coordinates of touch points 0 and 1
below 32768, the handler is called in a state (`Touch_lifted_distances`) whose
`last_coordinates` are the coordinates read on that poll and where `distance[0]` is
`last_coordinates[0] - start_coordinates[0]` per axis as exact integers; `distance[1]` is
`(0, 0)` if the touch count of the session is 1 and
`last_coordinates[1] - start_coordinates[1]` per axis for every other touch count. -/
theorem C15_lift_distances (s : State) (p : Poll) (hl : liftTransition s p)
    (hb : ∀ i j, i < 2 → j < 2 →
      s.touch_evt.start_coordinates i j < 32768 ∧ p.getTScoordinates i j < 32768) :
    (Touch s p).2 =
        (if s.previous_touch = 1
            ∧ abs ((Touch_lifted_distances s p).touch_evt.distance 0 0) < BUTTON_TOUCH
            ∧ abs ((Touch_lifted_distances s p).touch_evt.distance 0 1) < BUTTON_TOUCH
        then [Call.Button_Handler (s.touch_evt.start_coordinates 0 0)
                (s.touch_evt.start_coordinates 0 1)]
        else Call.Gesture_Handler s.previous_touch ::
          (Gesture_Handler s.previous_touch (Touch_lifted_distances s p)).2)
      ∧ (Touch_lifted_distances s p).touch_evt.last_coordinates = p.getTScoordinates
      ∧ (Touch_lifted_distances s p).touch_evt.start_coordinates = s.touch_evt.start_coordinates
      ∧ (Touch_lifted_distances s p).touch_evt.distance 0 0
          = (p.getTScoordinates 0 0 : Int) - s.touch_evt.start_coordinates 0 0
      ∧ (Touch_lifted_distances s p).touch_evt.distance 0 1
          = (p.getTScoordinates 0 1 : Int) - s.touch_evt.start_coordinates 0 1
      ∧ (Touch_lifted_distances s p).touch_evt.distance 1 0
          = (if s.previous_touch = 1 then 0
              else (p.getTScoordinates 1 0 : Int) - s.touch_evt.start_coordinates 1 0)
      ∧ (Touch_lifted_distances s p).touch_evt.distance 1 1
          = (if s.previous_touch = 1 then 0
              else (p.getTScoordinates 1 1 : Int) - s.touch_evt.start_coordinates 1 1) := by
  obtain ⟨h1, h2, h3⟩ := hl
  obtain ⟨e00, e01, e10, e11⟩ := Touch_lifted_distances_entries s p
  have b00 := hb 0 0 (by decide) (by decide)
  have b01 := hb 0 1 (by decide) (by decide)
  have b10 := hb 1 0 (by decide) (by decide)
  have b11 := hb 1 1 (by decide) (by decide)
  refine ⟨?_, rfl, rfl, ?_, ?_, ?_, ?_⟩
  · rw [Touch_lift s p h3 ⟨h1, h2⟩, Touch_lifted_classifies]
  · rw [e00]; exact toInt16_of_small _ (by omega) (by omega)
  · rw [e01]; exact toInt16_of_small _ (by omega) (by omega)
  · rw [e10]; split_ifs
    · rfl
    · exact toInt16_of_small _ (by omega) (by omega)
  · rw [e11]; split_ifs
    · rfl
    · exact toInt16_of_small _ (by omega) (by omega)

/-- C15 as amended, at a concrete input: a two-finger session from (50,50), (150,150) to
(80,80), (120,120) is classified with `distance[0] = (30, 30)` and
`distance[1] = (-30, -30)`. -/
theorem C15_lift_distances_witness :
    (Touch_lifted_distances
        (Touch (initState 0 fun _ => 0) (touchPoll 2 50 50 150 150 false)).1
        (touchPoll 0 80 80 120 120 false)).touch_evt.distance 0 0 = 30
      ∧ (Touch_lifted_distances
        (Touch (initState 0 fun _ => 0) (touchPoll 2 50 50 150 150 false)).1
        (touchPoll 0 80 80 120 120 false)).touch_evt.distance 1 1 = -30 := by
  have h := C15_lift_distances
    (Touch (initState 0 fun _ => 0) (touchPoll 2 50 50 150 150 false)).1
    (touchPoll 0 80 80 120 120 false) (by decide)
    (by
      intro i j hi hj
      interval_cases i <;> interval_cases j <;> decide)
  refine ⟨h.2.2.2.1.trans (by decide), h.2.2.2.2.2.2.trans (by decide)⟩

/-- The two-finger session of the specification: fingers at (50,50), (150,150), lifted at
(80,80), (120,120); the distances at the start and at the end in the state in which
`Gesture_Handler(2)` is called. -/
theorem two_finger_example_dist :
    dist_start (Touch_lifted_distances
        (Touch (initState 0 fun _ => 0) (touchPoll 2 50 50 150 150 false)).1
        (touchPoll 0 80 80 120 120 false)) = 141
      ∧ dist_end (Touch_lifted_distances
        (Touch (initState 0 fun _ => 0) (touchPoll 2 50 50 150 150 false)).1
        (touchPoll 0 80 80 120 120 false)) = 56 := by
  have h1 : Nat.sqrt 20000 = 141 := by norm_num
  have h2 : Nat.sqrt 3200 = 56 := by norm_num
  constructor
  · simp [dist_start, Touch_lifted_distances, Touch, touchPoll, points, initState, toInt16, h1]
  · simp [dist_end, Touch_lifted_distances, Touch, touchPoll, points, initState, toInt16, h2]

/-- C16, the computed value against the claim: for the session from (50,50), (150,150) to
(80,80), (120,120) the program computes `dist_end = 56`, the truncated square root of
3200, so `dist_end` is not 57 and `dist_start - dist_end` is not 84. -/
theorem C16_counterexample :
    dist_end (Touch_lifted_distances
        (Touch (initState 0 fun _ => 0) (touchPoll 2 50 50 150 150 false)).1
        (touchPoll 0 80 80 120 120 false)) ≠ 57
      ∧ dist_start (Touch_lifted_distances
          (Touch (initState 0 fun _ => 0) (touchPoll 2 50 50 150 150 false)).1
          (touchPoll 0 80 80 120 120 false))
        - dist_end (Touch_lifted_distances
          (Touch (initState 0 fun _ => 0) (touchPoll 2 50 50 150 150 false)).1
          (touchPoll 0 80 80 120 120 false)) ≠ 84 := by
  obtain ⟨h1, h2⟩ := two_finger_example_dist
  rw [h1, h2]
  decide

/-- C16 as amended: for the session from (50,50), (150,150) to (80,80), (120,120),
`Gesture_Handler(2)` computes `dist_start = 141` and `dist_end = 56`, so
`dist_start - dist_end = 85`; neither pinch is triggered and the call ends in the volume
check, which takes its "Volume DOWN" branch. -/
theorem C16_two_finger_example :
    dist_start (Touch_lifted_distances
        (Touch (initState 0 fun _ => 0) (touchPoll 2 50 50 150 150 false)).1
        (touchPoll 0 80 80 120 120 false)) = 141
      ∧ dist_end (Touch_lifted_distances
        (Touch (initState 0 fun _ => 0) (touchPoll 2 50 50 150 150 false)).1
        (touchPoll 0 80 80 120 120 false)) = 56
      ∧ dist_start (Touch_lifted_distances
          (Touch (initState 0 fun _ => 0) (touchPoll 2 50 50 150 150 false)).1
          (touchPoll 0 80 80 120 120 false))
        - dist_end (Touch_lifted_distances
          (Touch (initState 0 fun _ => 0) (touchPoll 2 50 50 150 150 false)).1
          (touchPoll 0 80 80 120 120 false)) = 85
      ∧ (Touch (Touch (initState 0 fun _ => 0) (touchPoll 2 50 50 150 150 false)).1
          (touchPoll 0 80 80 120 120 false)).2
        = [Call.Gesture_Handler 2, Call.Serial_println "Volume DOWN"] := by
  obtain ⟨h1, h2⟩ := two_finger_example_dist
  refine ⟨h1, h2, by rw [h1, h2]; decide, ?_⟩
  rw [Touch_lift _ _ (by decide) (by decide), Touch_lifted_classifies, if_neg (by decide),
    show (Touch (initState 0 fun _ => 0) (touchPoll 2 50 50 150 150 false)).1.previous_touch = 2
      from rfl,
    Gesture_Handler_two, h1, h2]
  simp [Touch_lifted_distances, Touch, touchPoll, points, initState, toInt16, abs]

/-- C17, the code at the failing input: press at (100,100), a tracking poll and the lift
at (105,102).  The last coordinates of touch point 0 are (105,102) when the handler is
called, and `Button_Handler` is called with (100,100), the start coordinates. -/
theorem C17_button_gets_start_coordinates :
    actions (run (initState 0 fun _ => 0)
        [touchPoll 1 100 100 0 0 false, touchPoll 1 105 102 0 0 false,
          touchPoll 0 105 102 0 0 false]).2 = [Call.Button_Handler 100 100]
      ∧ (Touch_lifted_distances
          (run (initState 0 fun _ => 0)
            [touchPoll 1 100 100 0 0 false, touchPoll 1 105 102 0 0 false]).1
          (touchPoll 0 105 102 0 0 false)).touch_evt.last_coordinates 0 0 = 105
      ∧ (Touch_lifted_distances
          (run (initState 0 fun _ => 0)
            [touchPoll 1 100 100 0 0 false, touchPoll 1 105 102 0 0 false]).1
          (touchPoll 0 105 102 0 0 false)).touch_evt.last_coordinates 0 1 = 102 := by
  refine ⟨by decide, rfl, rfl⟩

/-- C18, the code at the failing input: two fingers pressed at (100,100), (300,100) and
lifted at the same places, no point having moved at all.  `Touch()` calls
`Gesture_Handler(2)`, which reports "Volume DOWN". -/
theorem C18_two_touch_always_gesture :
    (run (initState 0 fun _ => 0)
        [touchPoll 2 100 100 300 100 false, touchPoll 0 100 100 300 100 false]).2
      = debugStart 2 (points 100 100 300 100) ++ [Call.gesture_timer_reset]
        ++ [Call.Gesture_Handler 2, Call.Serial_println "Volume DOWN"] := by
  have h : Nat.sqrt 40000 = 200 := by norm_num
  rw [run_cons, run_single,
    Touch_press (initState 0 fun _ => 0) (touchPoll 2 100 100 300 100 false) 2 rfl (by decide),
    Touch_lift _ _ (by decide) (by decide), Touch_lifted_classifies, if_neg (by decide),
    Gesture_Handler_two]
  simp [dist_start, dist_end, Touch_lifted_distances, touchPoll, points, toInt16, abs, h]

/-! ## The outcome depends on touch points 0 and 1 only -/

theorem Gesture_Handler_user_Profile (g : Nat) (s : State) :
    (Gesture_Handler g s).1.user_Profile = s.user_Profile := by
  unfold Gesture_Handler
  simp only []
  split_ifs <;> rfl

/-- What `Gesture_Handler` does is determined by its argument, the distances of touch
point 0, the stored coordinates of touch points 0 and 1, and the user settings. -/
theorem Gesture_Handler_agree (g : Nat) (s t : State)
    (hp : s.user_Profile = t.user_Profile) (hv : s.spkr_Vol_last = t.spkr_Vol_last)
    (hd0 : s.touch_evt.distance 0 0 = t.touch_evt.distance 0 0)
    (hd1 : s.touch_evt.distance 0 1 = t.touch_evt.distance 0 1)
    (hs : agreeBelow 2 s.touch_evt.start_coordinates t.touch_evt.start_coordinates)
    (hl : agreeBelow 2 s.touch_evt.last_coordinates t.touch_evt.last_coordinates) :
    (Gesture_Handler g s).2 = (Gesture_Handler g t).2
      ∧ (Gesture_Handler g s).1.spkr_Vol_last = (Gesture_Handler g t).1.spkr_Vol_last := by
  have s00 := hs 0 0 (by decide) (by decide)
  have s01 := hs 0 1 (by decide) (by decide)
  have s10 := hs 1 0 (by decide) (by decide)
  have s11 := hs 1 1 (by decide) (by decide)
  have l00 := hl 0 0 (by decide) (by decide)
  have l01 := hl 0 1 (by decide) (by decide)
  have l10 := hl 1 0 (by decide) (by decide)
  have l11 := hl 1 1 (by decide) (by decide)
  unfold Gesture_Handler dist_start dist_end
  simp only [hp, hv, hd0, hd1, s00, s01, s10, s11, l00, l01, l10, l11]
  split_ifs <;> first | exact ⟨rfl, rfl⟩ | exact ⟨rfl, hv⟩

/-- The state after STATE 4, apart from the distances and the volumes. -/
theorem Touch_lifted_state (s : State) (p : Poll) :
    (Touch_lifted s p).1.previous_touch = 0
      ∧ (Touch_lifted s p).1.touch_evt.start_coordinates = s.touch_evt.start_coordinates
      ∧ (Touch_lifted s p).1.touch_evt.last_coordinates = p.getTScoordinates
      ∧ (Touch_lifted s p).1.user_Profile = s.user_Profile := by
  unfold Touch_lifted
  simp only []
  split_ifs <;> simp [(Gesture_Handler_touch_evt _ _).1, Gesture_Handler_user_Profile]

/-- STATE 4 on two states and polls that agree on touch points 0 and 1: the same calls
apart from diagnostics, and the same volumes after. -/
theorem Touch_lifted_agree (s t : State) (p q : Poll) (hst : s.agree t) (hpq : p.agree 2 q) :
    actions (Touch_lifted s p).2 = actions (Touch_lifted t q).2
      ∧ (Touch_lifted s p).1.spkr_Vol_last = (Touch_lifted t q).1.spkr_Vol_last := by
  obtain ⟨hprev, hprof, hvol, hstart, -⟩ := hst
  obtain ⟨-, -, -, hraw⟩ := hpq
  obtain ⟨e00, e01, -, -⟩ := Touch_lifted_distances_entries s p
  obtain ⟨f00, f01, -, -⟩ := Touch_lifted_distances_entries t q
  have d00 : (Touch_lifted_distances s p).touch_evt.distance 0 0
      = (Touch_lifted_distances t q).touch_evt.distance 0 0 := by
    rw [e00, f00, hstart 0 0 (by decide) (by decide), hraw 0 0 (by decide) (by decide)]
  have d01 : (Touch_lifted_distances s p).touch_evt.distance 0 1
      = (Touch_lifted_distances t q).touch_evt.distance 0 1 := by
    rw [e01, f01, hstart 0 1 (by decide) (by decide), hraw 0 1 (by decide) (by decide)]
  have hG := Gesture_Handler_agree t.previous_touch
    (Touch_lifted_distances s p) (Touch_lifted_distances t q) hprof hvol d00 d01 hstart hraw
  rw [Touch_lifted_classifies, Touch_lifted_classifies, Touch_lifted_settings,
    Touch_lifted_settings, hprev, d00, d01,
    hstart 0 0 (by decide) (by decide), hstart 0 1 (by decide) (by decide), hG.1, hG.2, hvol]
  exact ⟨rfl, rfl⟩

/-- One call of `Touch()` on two states and polls that agree on touch points 0 and 1:
the states agree again, and the same calls are made apart from diagnostics. -/
theorem Touch_agree (s t : State) (p q : Poll) (hst : s.agree t) (hpq : p.agree 2 q) :
    (Touch s p).1.agree (Touch t q).1 ∧ actions (Touch s p).2 = actions (Touch t q).2 := by
  have hst' := hst
  have hpq' := hpq
  obtain ⟨hprev, hprof, hvol, hstart, hlast⟩ := hst
  obtain ⟨htouched, hcount, hexp, hraw⟩ := hpq
  by_cases ht : p.touched = true
  · have ht' : q.touched = true := by rw [← htouched]; exact ht
    by_cases hc : p.getTouches = 0
    · have hc' : q.getTouches = 0 := by rw [← hcount]; exact hc
      by_cases h0 : s.previous_touch = 0
      · have h0' : t.previous_touch = 0 := by rw [← hprev]; exact h0
        have e1 : Touch s p = (s, []) := by simp [Touch, ht, hc, h0]
        have e2 : Touch t q = (t, []) := by simp [Touch, ht', hc', h0']
        rw [e1, e2]
        exact ⟨hst', rfl⟩
      · have h0' : t.previous_touch ≠ 0 := by rw [← hprev]; exact h0
        rw [Touch_lift s p h0 ⟨ht, hc⟩, Touch_lift t q h0' ⟨ht', hc'⟩]
        obtain ⟨a1, a2, a3, a4⟩ := Touch_lifted_state s p
        obtain ⟨b1, b2, b3, b4⟩ := Touch_lifted_state t q
        obtain ⟨hact, hv⟩ := Touch_lifted_agree s t p q hst' hpq'
        refine ⟨⟨by rw [a1, b1], by rw [a4, b4, hprof], hv, by rw [a2, b2]; exact hstart,
          by rw [a3, b3]; exact hraw⟩, hact⟩
    · have hc' : q.getTouches ≠ 0 := by rw [← hcount]; exact hc
      by_cases h0 : s.previous_touch = 0
      · have h0' : t.previous_touch = 0 := by rw [← hprev]; exact h0
        rw [Touch_press s p p.getTouches h0 ⟨ht, rfl, hc⟩,
          Touch_press t q q.getTouches h0' ⟨ht', rfl, hc'⟩]
        refine ⟨⟨hcount, hprof, hvol, hraw, hraw⟩, ?_⟩
        simp only [actions_append, actions_debugStart]
      · have h0' : t.previous_touch ≠ 0 := by rw [← hprev]; exact h0
        cases he : p.timer_expired
        · have he' : q.timer_expired = false := by rw [← hexp]; exact he
          rw [Touch_tracking s p h0 ⟨ht, hc, he⟩, Touch_tracking t q h0' ⟨ht', hc', he'⟩]
          exact ⟨⟨hprev, hprof, hvol, hstart, hraw⟩, rfl⟩
        · have he' : q.timer_expired = true := by rw [← hexp]; exact he
          rw [Touch_timeout s p h0 ⟨ht, hc, he⟩, Touch_timeout t q h0' ⟨ht', hc', he'⟩]
          exact ⟨⟨rfl, hprof, hvol, hstart, hlast⟩, rfl⟩
  · have ht' : ¬ q.touched = true := by rw [← htouched]; exact ht
    have e1 : Touch s p = (s, []) := by simp [Touch, ht]
    have e2 : Touch t q = (t, []) := by simp [Touch, ht']
    rw [e1, e2]
    exact ⟨hst', rfl⟩

/-- Runs of `Touch()` on two states and poll sequences that agree on touch points 0 and 1
make the same calls apart from diagnostics. -/
theorem run_agree (ps qs : List Poll) (hpq : List.Forall₂ (Poll.agree 2) ps qs) (s t : State)
    (hst : s.agree t) :
    actions (run s ps).2 = actions (run t qs).2 := by
  induction hpq generalizing s t with
  | nil => rfl
  | cons h _ ih =>
    obtain ⟨h1, h2⟩ := Touch_agree s t _ _ hst h
    rw [run_cons, run_cons]
    simp only [actions_append]
    rw [h2, ih _ _ h1]

/-- The calls of a single-touch session, apart from diagnostics, as a function of the
coordinates of touch point 0 on the press and on the lift. -/
theorem single_touch_session_actions (s : State) (press lift : Poll) (tracking : List Poll)
    (hs : s.previous_touch = 0) (hpress : press.isPress 1)
    (htrack : ∀ q ∈ tracking, q.isTracking) (hlift : lift.isLift) :
    actions (run s (press :: tracking ++ [lift])).2 =
      if abs (toInt16 ((lift.getTScoordinates 0 0 : Int) - press.getTScoordinates 0 0)) < 40
          ∧ abs (toInt16 ((lift.getTScoordinates 0 1 : Int) - press.getTScoordinates 0 1)) < 40
      then [Call.Button_Handler (press.getTScoordinates 0 0) (press.getTScoordinates 0 1)]
      else [Call.Gesture_Handler 1,
        if abs (toInt16 ((lift.getTScoordinates 0 1 : Int) - press.getTScoordinates 0 1))
            > abs (toInt16 ((lift.getTScoordinates 0 0 : Int) - press.getTScoordinates 0 0)) then
          (if toInt16 ((lift.getTScoordinates 0 1 : Int) - press.getTScoordinates 0 1) > 0
            then Call.changeBands (-1) else Call.changeBands 1)
        else
          (if toInt16 ((lift.getTScoordinates 0 0 : Int) - press.getTScoordinates 0 0) < 0
            then Call.Rate (-1) else Call.Rate 1)] := by
  obtain ⟨ha, hp, hc⟩ := run_press_tracking s press tracking 1 hs hpress htrack
  have happ : press :: tracking ++ [lift] = (press :: tracking) ++ [lift] := rfl
  rw [happ, run_append, run_single]
  simp only [actions_append, ha, List.nil_append]
  rw [Touch_lift _ lift (by rw [hp]; decide) hlift, Touch_lifted_trace, hc, hp]
  by_cases hb : abs (toInt16 ((lift.getTScoordinates 0 0 : Int) - press.getTScoordinates 0 0)) < 40
      ∧ abs (toInt16 ((lift.getTScoordinates 0 1 : Int) - press.getTScoordinates 0 1)) < 40
  · rw [if_pos ⟨rfl, hb⟩, if_pos hb]
    rfl
  · rw [if_neg (fun h => hb h.2), if_neg hb, actions_cons_Gesture_Handler,
      actions_Gesture_Handler_one]
    simp [set2_apply]

/-- Polls that agree with tracking polls are tracking polls. -/
theorem tracking_agree (k : Nat) (l l' : List Poll) (h : List.Forall₂ (Poll.agree k) l l')
    (htrack : ∀ q ∈ l, q.isTracking) : ∀ q ∈ l', q.isTracking := by
  induction h with
  | nil => intro q hq; cases hq
  | cons hab _ ih =>
    intro q hq
    rcases List.mem_cons.1 hq with rfl | hq
    · obtain ⟨h1, h2, h3⟩ := htrack _ (List.mem_cons_self _ _)
      obtain ⟨e1, e2, e3, -⟩ := hab
      exact ⟨by rw [← e1]; exact h1, by rw [← e2]; exact h2, by rw [← e3]; exact h3⟩
    · exact ih (fun r hr => htrack r (List.mem_cons_of_mem _ hr)) q hq

/-- C19: two runs of `Touch()` over poll sequences that report the same except for the
coordinates of the touch points from index 2 on, from states that agree except for those
points, make the same handler calls with the same arguments and the same action calls;
and two single-touch sessions (press with one touch, tracking polls, lift) whose polls
report the same except for the coordinates of the touch points from index 1 on do so too,
from any two states with nothing pending. -/
theorem C19_depends_on_first_two_points (s t : State) (ps qs : List Poll)
    (hst : s.agree t) (hpq : List.Forall₂ (Poll.agree 2) ps qs)
    (s1 t1 : State) (press press' lift lift' : Poll) (tracking tracking' : List Poll)
    (hs1 : s1.previous_touch = 0) (ht1 : t1.previous_touch = 0)
    (hpress : press.isPress 1) (htrack : ∀ q ∈ tracking, q.isTracking) (hlift : lift.isLift)
    (hp : press.agree 1 press') (htr : List.Forall₂ (Poll.agree 1) tracking tracking')
    (hl : lift.agree 1 lift') :
    actions (run s ps).2 = actions (run t qs).2
      ∧ actions (run s1 (press :: tracking ++ [lift])).2
          = actions (run t1 (press' :: tracking' ++ [lift'])).2 := by
  refine ⟨run_agree ps qs hpq s t hst, ?_⟩
  have hpress' : press'.isPress 1 := by
    obtain ⟨h1, h2, h3⟩ := hpress
    exact ⟨by rw [← hp.1]; exact h1, by rw [← hp.2.1]; exact h2, h3⟩
  have hlift' : lift'.isLift := by
    obtain ⟨h1, h2⟩ := hlift
    exact ⟨by rw [← hl.1]; exact h1, by rw [← hl.2.1]; exact h2⟩
  have htrack' := tracking_agree 1 tracking tracking' htr htrack
  rw [single_touch_session_actions s1 press lift tracking hs1 hpress htrack hlift,
    single_touch_session_actions t1 press' lift' tracking' ht1 hpress' htrack' hlift',
    hp.2.2.2 0 0 (by decide) (by decide), hp.2.2.2 0 1 (by decide) (by decide),
    hl.2.2.2 0 0 (by decide) (by decide), hl.2.2.2 0 1 (by decide) (by decide)]

/-- C19 at concrete inputs: a three-finger session whose third point is reported at
different places in the two runs, and a single-touch session whose second table row
differs in the two runs. -/
theorem C19_depends_on_first_two_points_witness :
    actions (run (initState 0 fun _ => 1 / 2)
        [touchPoll3 3 100 100 200 100 300 100 false,
          touchPoll3 0 100 150 200 150 300 150 false]).2
      = actions (run (initState 0 fun _ => 1 / 2)
        [touchPoll3 3 100 100 200 100 7 7 false, touchPoll3 0 100 150 200 150 9 9 false]).2
      ∧ actions (run (initState 0 fun _ => 0)
          [touchPoll 1 100 100 0 0 false, touchPoll 1 120 100 0 0 false,
            touchPoll 0 160 100 0 0 false]).2
        = actions (run (initState 0 fun _ => 0)
          [touchPoll 1 100 100 55 66 false, touchPoll 1 120 100 77 88 false,
            touchPoll 0 160 100 99 11 false]).2 :=
  C19_depends_on_first_two_points (initState 0 fun _ => 1 / 2) (initState 0 fun _ => 1 / 2)
    [touchPoll3 3 100 100 200 100 300 100 false, touchPoll3 0 100 150 200 150 300 150 false]
    [touchPoll3 3 100 100 200 100 7 7 false, touchPoll3 0 100 150 200 150 9 9 false]
    ⟨rfl, rfl, rfl, fun _ _ _ _ => rfl, fun _ _ _ _ => rfl⟩
    (List.Forall₂.cons
      ⟨rfl, rfl, rfl, fun i j hi hj => by interval_cases i <;> interval_cases j <;> rfl⟩
      (List.Forall₂.cons
        ⟨rfl, rfl, rfl, fun i j hi hj => by interval_cases i <;> interval_cases j <;> rfl⟩
        List.Forall₂.nil))
    (initState 0 fun _ => 0) (initState 0 fun _ => 0)
    (touchPoll 1 100 100 0 0 false) (touchPoll 1 100 100 55 66 false)
    (touchPoll 0 160 100 0 0 false) (touchPoll 0 160 100 99 11 false)
    [touchPoll 1 120 100 0 0 false] [touchPoll 1 120 100 77 88 false]
    rfl rfl (by decide) (by decide) (by decide)
    ⟨rfl, rfl, rfl, fun i j hi hj => by interval_cases i; interval_cases j <;> rfl⟩
    (List.Forall₂.cons
      ⟨rfl, rfl, rfl, fun i j hi hj => by interval_cases i; interval_cases j <;> rfl⟩
      List.Forall₂.nil)
    ⟨rfl, rfl, rfl, fun i j hi hj => by interval_cases i; interval_cases j <;> rfl⟩

/-- C20, a session against the claim: two fingers pressed at (100,100), (300,100) and
lifted at (100,350), (300,350).  The inter-point distance stays 200 (no pinch), the first
point moves down by 250 with no horizontal displacement, and `Gesture_Handler(2)` reports
"Volume UP", not "Volume DOWN". -/
theorem C20_counterexample :
    (Touch (Touch (initState 0 fun _ => 0) (touchPoll 2 100 100 300 100 false)).1
        (touchPoll 0 100 350 300 350 false)).2
      = [Call.Gesture_Handler 2, Call.Serial_println "Volume UP"] := by
  have h : Nat.sqrt 40000 = 200 := by norm_num
  rw [Touch_lift _ _ (by decide) (by decide), Touch_lifted_classifies, if_neg (by decide),
    show (Touch (initState 0 fun _ => 0) (touchPoll 2 100 100 300 100 false)).1.previous_touch = 2
      from rfl,
    Gesture_Handler_two]
  simp [dist_start, dist_end, Touch_lifted_distances, Touch, touchPoll, points, initState,
    toInt16, abs, h]

/-- C20 as amended: in `Gesture_Handler(2)` inside the deadband (neither pinch triggered),
when the first tracked point's y (the `int16_t` copy) increases by more than 200, or
decreases by more than 200, while its horizontal displacement stays under 200, the only
call is the report "Volume UP"; "Volume DOWN" is not reported. -/
theorem C20_vertical_move_is_volume_up (s : State)
    (hin : dist_start s - dist_end s ≤ 200) (hout : dist_end s - dist_start s ≤ 200)
    (hx : abs (toInt16 (s.touch_evt.start_coordinates 0 0)
            - toInt16 (s.touch_evt.last_coordinates 0 0)) < 200)
    (hy : toInt16 (s.touch_evt.last_coordinates 0 1)
            - toInt16 (s.touch_evt.start_coordinates 0 1) > 200
          ∨ toInt16 (s.touch_evt.start_coordinates 0 1)
            - toInt16 (s.touch_evt.last_coordinates 0 1) > 200) :
    (Gesture_Handler 2 s).2 = [Call.Serial_println "Volume UP"] := by
  have hy' : abs (toInt16 (s.touch_evt.start_coordinates 0 1)
      - toInt16 (s.touch_evt.last_coordinates 0 1)) > 200 := by
    rw [abs_eq_natAbs]; omega
  rw [Gesture_Handler_two]
  simp only []
  rw [if_neg (by omega), if_neg (by omega), if_pos ⟨hout, hx, hy'⟩]
  rfl

/-- C20 as amended, at the concrete session from (100,100), (300,100) to (100,350),
(300,350): the state in which `Gesture_Handler(2)` is called is inside the deadband, the
first point has moved down by 250, and the report is "Volume UP". -/
theorem C20_vertical_move_is_volume_up_witness :
    (Gesture_Handler 2 (Touch_lifted_distances
        (Touch (initState 0 fun _ => 0) (touchPoll 2 100 100 300 100 false)).1
        (touchPoll 0 100 350 300 350 false))).2 = [Call.Serial_println "Volume UP"] := by
  have h : Nat.sqrt 40000 = 200 := by norm_num
  have hs : dist_start (Touch_lifted_distances
      (Touch (initState 0 fun _ => 0) (touchPoll 2 100 100 300 100 false)).1
      (touchPoll 0 100 350 300 350 false)) = 200 := by
    simp [dist_start, Touch_lifted_distances, Touch, touchPoll, points, initState, toInt16, h]
  have he : dist_end (Touch_lifted_distances
      (Touch (initState 0 fun _ => 0) (touchPoll 2 100 100 300 100 false)).1
      (touchPoll 0 100 350 300 350 false)) = 200 := by
    simp [dist_end, Touch_lifted_distances, Touch, touchPoll, points, initState, toInt16, h]
  exact C20_vertical_move_is_volume_up _ (by rw [hs, he]; decide) (by rw [hs, he]; decide)
    (by decide) (Or.inl (by decide))

/-! ## Third part: restart after a timeout, the deadband, invariants -/

/-- A press held through tracking polls up to the poll on which the timer expires: nothing
but diagnostics is called, and nothing is pending afterwards. -/
theorem run_press_tracking_timeout (s : State) (press expiry : Poll) (tracking : List Poll)
    (n : Nat) (hs : s.previous_touch = 0) (hpress : press.isPress n)
    (htrack : ∀ q ∈ tracking, q.isTracking) (hexp : expiry.isTimeout) :
    actions (run s (press :: tracking ++ [expiry])).2 = []
      ∧ (run s (press :: tracking ++ [expiry])).1.previous_touch = 0 := by
  obtain ⟨ha, hp, -⟩ := run_press_tracking s press tracking n hs hpress htrack
  have hn : n ≠ 0 := hpress.2.2
  have happ : press :: tracking ++ [expiry] = (press :: tracking) ++ [expiry] := rfl
  rw [happ, run_append, run_single, Touch_timeout _ expiry (by rw [hp]; exact hn) hexp]
  refine ⟨?_, rfl⟩
  simp only [actions_append, ha, List.nil_append]
  rfl

/-- C21: when a single finger is held through the poll on which the timer expires and
stays down, the next poll starts a fresh session whose `start_coordinates` are the
coordinates of that poll; if the finger is then lifted, after tracking polls without a
second timeout, within 40 of the new start point on both axes, the only call of the whole
sequence (apart from diagnostics) is `Button_Handler` with the new start coordinates. -/
theorem C21_restart_after_timeout (s : State) (press expiry next lift : Poll)
    (tracking tracking2 : List Poll)
    (hs : s.previous_touch = 0) (hpress : press.isPress 1)
    (htrack : ∀ q ∈ tracking, q.isTracking) (hexp : expiry.isTimeout)
    (hnext : next.isPress 1) (htrack2 : ∀ q ∈ tracking2, q.isTracking) (hlift : lift.isLift)
    (hdx : ((lift.getTScoordinates 0 0 : Int) - next.getTScoordinates 0 0).natAbs < 40)
    (hdy : ((lift.getTScoordinates 0 1 : Int) - next.getTScoordinates 0 1).natAbs < 40) :
    (run s ((press :: tracking ++ [expiry]) ++ [next])).1.touch_evt.start_coordinates
        = next.getTScoordinates
      ∧ (run s ((press :: tracking ++ [expiry]) ++ [next])).1.previous_touch = 1
      ∧ actions (run s ((press :: tracking ++ [expiry]) ++ (next :: tracking2 ++ [lift]))).2
        = [Call.Button_Handler (next.getTScoordinates 0 0) (next.getTScoordinates 0 1)] := by
  obtain ⟨ha, h0⟩ := run_press_tracking_timeout s press expiry tracking 1 hs hpress htrack hexp
  have hT := Touch_press (run s (press :: tracking ++ [expiry])).1 next 1 h0 hnext
  refine ⟨?_, ?_, ?_⟩
  · rw [run_append, run_single, hT]
  · rw [run_append, run_single, hT]
  · rw [run_append]
    simp only [actions_append, ha, List.nil_append]
    rw [single_touch_session_actions _ next lift tracking2 h0 hnext htrack2 hlift]
    have hx : abs (toInt16 ((lift.getTScoordinates 0 0 : Int) - next.getTScoordinates 0 0)) < 40 := by
      rw [abs_eq_natAbs]; unfold toInt16; omega
    have hy : abs (toInt16 ((lift.getTScoordinates 0 1 : Int) - next.getTScoordinates 0 1)) < 40 := by
      rw [abs_eq_natAbs]; unfold toInt16; omega
    rw [if_pos ⟨hx, hy⟩]

/-- C21 at a concrete input: press at (100,100), timer expiry with the finger at
(105,102), the finger still down at (300,100) on the next poll, a tracking poll and the
lift at (310,95): `Button_Handler(300,100)`. -/
theorem C21_restart_after_timeout_witness :
    actions (run (initState 0 fun _ => 0)
        [touchPoll 1 100 100 0 0 false, touchPoll 1 105 102 0 0 true,
          touchPoll 1 300 100 0 0 false, touchPoll 1 305 98 0 0 false,
          touchPoll 0 310 95 0 0 false]).2 = [Call.Button_Handler 300 100] :=
  (C21_restart_after_timeout (initState 0 fun _ => 0)
    (touchPoll 1 100 100 0 0 false) (touchPoll 1 105 102 0 0 true)
    (touchPoll 1 300 100 0 0 false) (touchPoll 0 310 95 0 0 false)
    [] [touchPoll 1 305 98 0 0 false] rfl (by decide) (by simp) (by decide) (by decide)
    (by decide) (by decide) (by decide) (by decide)).2.2

/-- C22: in `Gesture_Handler(2)` inside the deadband (`dist_end - dist_start` and
`dist_start - dist_end` both at most 200) the only call is one volume report:
"Volume UP" when `|t1_x_s - t1_x_e| < 200` and `|t1_y_s - t1_y_e| > 200`, "Volume DOWN"
in every other case; `Set_Spectrum_Scale` is not called. -/
theorem C22_deadband_volume_branch (s : State)
    (hin : dist_start s - dist_end s ≤ 200) (hout : dist_end s - dist_start s ≤ 200) :
    (Gesture_Handler 2 s).2 =
      [if abs (toInt16 (s.touch_evt.start_coordinates 0 0)
              - toInt16 (s.touch_evt.last_coordinates 0 0)) < 200
            ∧ abs (toInt16 (s.touch_evt.start_coordinates 0 1)
              - toInt16 (s.touch_evt.last_coordinates 0 1)) > 200
        then Call.Serial_println "Volume UP" else Call.Serial_println "Volume DOWN"] := by
  rw [Gesture_Handler_two]
  simp only []
  rw [if_neg (by omega), if_neg (by omega)]
  by_cases h : abs (toInt16 (s.touch_evt.start_coordinates 0 0)
        - toInt16 (s.touch_evt.last_coordinates 0 0)) < 200
      ∧ abs (toInt16 (s.touch_evt.start_coordinates 0 1)
        - toInt16 (s.touch_evt.last_coordinates 0 1)) > 200
  · rw [if_pos ⟨hout, h⟩, if_pos h]; rfl
  · rw [if_neg (fun h' => h h'.2), if_pos hin, if_neg h]; rfl

/-- C22 at a concrete input, the two-finger session from (50,50), (150,150) to (80,80),
(120,120): inside the deadband, point 0 has moved by 30 on each axis, so the report is
"Volume DOWN". -/
theorem C22_deadband_volume_branch_witness :
    (Gesture_Handler 2 (Touch_lifted_distances
        (Touch (initState 0 fun _ => 0) (touchPoll 2 50 50 150 150 false)).1
        (touchPoll 0 80 80 120 120 false))).2 = [Call.Serial_println "Volume DOWN"] := by
  obtain ⟨h1, h2⟩ := two_finger_example_dist
  exact (C22_deadband_volume_branch _ (by rw [h1, h2]; decide) (by rw [h1, h2]; decide)).trans
    (by rw [if_neg (by decide)])

/-- Every run of `Touch()` from a reachable state ends in a reachable state. -/
theorem Reachable_run (polls : List Poll) (s : State) (hr : Reachable s) :
    Reachable (run s polls).1 := by
  induction polls generalizing s with
  | nil => exact hr
  | cons p ps ih => exact ih _ (Reachable.poll s p hr)

/-- After a poll that reports a touch event with no touch point nothing is pending. -/
theorem Touch_isLift_previous_touch (s : State) (p : Poll) (hp : p.isLift) :
    (Touch s p).1.previous_touch = 0 := by
  by_cases h0 : s.previous_touch = 0
  · have e : Touch s p = (s, []) := by simp [Touch, hp.1, hp.2, h0]
    rw [e]; exact h0
  · rw [Touch_lift s p h0 hp]
    exact (Touch_lifted_state s p).1

/-- C23: starting from the zero-initialised `touch_evt` with `previous_touch == 0`, after
any sequence of calls of `Touch()` all entries of `touch_evt.distance` are 0, and after
every call on a lift poll `previous_touch` is 0. -/
theorem C23_distance_zero_invariant (user_Profile : Nat) (spkr_Vol_last : Nat → ℚ)
    (polls : List Poll) (p : Poll) :
    (∀ i j, (run (initState user_Profile spkr_Vol_last) polls).1.touch_evt.distance i j = 0)
      ∧ (p.isLift →
          (run (initState user_Profile spkr_Vol_last) (polls ++ [p])).1.previous_touch = 0) := by
  constructor
  · exact Reachable_distance_zero _
      (Reachable_run polls _ (Reachable.start user_Profile spkr_Vol_last))
  · intro hp
    rw [run_append, run_single]
    exact Touch_isLift_previous_touch _ p hp

/-- C23 at a concrete input: after a two-finger pinch session the distances are 0 again
and nothing is pending. -/
theorem C23_distance_zero_invariant_witness :
    (run (initState 0 fun _ => 0)
        [touchPoll 2 0 0 600 0 false, touchPoll 0 100 250 200 250 false]).1.touch_evt.distance
          1 0 = 0
      ∧ (run (initState 0 fun _ => 0)
        ([touchPoll 2 0 0 600 0 false] ++ [touchPoll 0 100 250 200 250 false])).1.previous_touch
          = 0 :=
  ⟨(C23_distance_zero_invariant 0 (fun _ => 0)
      [touchPoll 2 0 0 600 0 false, touchPoll 0 100 250 200 250 false]
      (touchPoll 0 100 250 200 250 false)).1 1 0,
   (C23_distance_zero_invariant 0 (fun _ => 0) [touchPoll 2 0 0 600 0 false]
      (touchPoll 0 100 250 200 250 false)).2 (by decide)⟩

/-- The integer part of the exact square root of a sum of two integer squares is the
integer square root. -/
theorem floor_sqrt_sum_sq (a b : Int) :
    ⌊Real.sqrt ((a : ℝ) ^ 2 + (b : ℝ) ^ 2)⌋ = (Nat.sqrt (a ^ 2 + b ^ 2).toNat : Int) := by
  have hz : 0 ≤ a ^ 2 + b ^ 2 := by positivity
  have hc : (((a ^ 2 + b ^ 2).toNat : Int) : ℝ) = (a : ℝ) ^ 2 + (b : ℝ) ^ 2 := by
    rw [Int.toNat_of_nonneg hz]; push_cast; ring
  have hn : (((a ^ 2 + b ^ 2).toNat : ℕ) : ℝ) = (a : ℝ) ^ 2 + (b : ℝ) ^ 2 := by
    rw [← hc]; norm_cast
  rw [← hn, Real.floor_real_sqrt_eq_nat_sqrt]

/-- The integer square root of a sum of squares below `32768^2` fits `int16_t`. -/
theorem toInt16_sqrt_small (z : Int) (hz : z < 32768 ^ 2) :
    toInt16 (Nat.sqrt z.toNat) = (Nat.sqrt z.toNat : Int) := by
  have h : Nat.sqrt z.toNat < 32768 := by
    rw [Nat.sqrt_lt']
    omega
  exact toInt16_of_small _ (by omega) (by omega)

/-- C24, coordinates against the claim: the two tracked points start (and end) at
(30000,100) and (40000,100), 10000 apart.  The `int16_t` copy of 40000 is -25536, so the
program takes the square root of `(-55536)^2`, and 55536 does not fit `int16_t`: the
computed `dist_start` is -10000, while the integer part of the exact square root of
`(x2 - x1)^2 + (y2 - y1)^2` is 10000. -/
theorem C24_counterexample :
    dist_start (Touch_lifted_distances
        (Touch (initState 0 fun _ => 0) (touchPoll 2 30000 100 40000 100 false)).1
        (touchPoll 0 30000 100 40000 100 false)) = -10000
      ∧ ⌊Real.sqrt (((40000 : ℝ) - 30000) ^ 2 + ((100 : ℝ) - 100) ^ 2)⌋ = 10000 := by
  constructor
  · have h : Nat.sqrt 3084247296 = 55536 := by norm_num
    simp [dist_start, Touch_lifted_distances, Touch, touchPoll, points, initState, toInt16, h]
  · have h : ((40000 : ℝ) - 30000) ^ 2 + ((100 : ℝ) - 100) ^ 2 = (10000 : ℝ) ^ 2 := by norm_num
    rw [h, Real.sqrt_sq (by norm_num)]
    exact Int.floor_natCast 10000

/-- C24 as amended: when the stored coordinates of the two tracked points are all below
32768 and the Euclidean separations of the two points at the start and at the end are
below 32768, `dist_start` and `dist_end` are the integer parts of the exact square roots
of `(x2 - x1)^2 + (y2 - y1)^2` taken from `start_coordinates` and from
`last_coordinates`. -/
theorem C24_dist_is_floor_sqrt (s : State)
    (hb : ∀ i j, i < 2 → j < 2 →
      s.touch_evt.start_coordinates i j < 32768 ∧ s.touch_evt.last_coordinates i j < 32768)
    (hs : ((s.touch_evt.start_coordinates 1 0 : Int) - s.touch_evt.start_coordinates 0 0) ^ 2
        + ((s.touch_evt.start_coordinates 1 1 : Int) - s.touch_evt.start_coordinates 0 1) ^ 2
        < 32768 ^ 2)
    (he : ((s.touch_evt.last_coordinates 1 0 : Int) - s.touch_evt.last_coordinates 0 0) ^ 2
        + ((s.touch_evt.last_coordinates 1 1 : Int) - s.touch_evt.last_coordinates 0 1) ^ 2
        < 32768 ^ 2) :
    dist_start s
        = ⌊Real.sqrt (((s.touch_evt.start_coordinates 1 0 : ℝ) - s.touch_evt.start_coordinates 0 0) ^ 2
            + ((s.touch_evt.start_coordinates 1 1 : ℝ) - s.touch_evt.start_coordinates 0 1) ^ 2)⌋
      ∧ dist_end s
        = ⌊Real.sqrt (((s.touch_evt.last_coordinates 1 0 : ℝ) - s.touch_evt.last_coordinates 0 0) ^ 2
            + ((s.touch_evt.last_coordinates 1 1 : ℝ) - s.touch_evt.last_coordinates 0 1) ^ 2)⌋ := by
  have b00 := hb 0 0 (by decide) (by decide)
  have b01 := hb 0 1 (by decide) (by decide)
  have b10 := hb 1 0 (by decide) (by decide)
  have b11 := hb 1 1 (by decide) (by decide)
  have c (n : Nat) (h : n < 32768) : toInt16 (n : Int) = n :=
    toInt16_of_small _ (by omega) (by omega)
  constructor
  · have h := floor_sqrt_sum_sq
      ((s.touch_evt.start_coordinates 1 0 : Int) - s.touch_evt.start_coordinates 0 0)
      ((s.touch_evt.start_coordinates 1 1 : Int) - s.touch_evt.start_coordinates 0 1)
    push_cast at h
    rw [h]
    unfold dist_start
    simp only [c _ b00.1, c _ b01.1, c _ b10.1, c _ b11.1]
    exact toInt16_sqrt_small _ hs
  · have h := floor_sqrt_sum_sq
      ((s.touch_evt.last_coordinates 1 0 : Int) - s.touch_evt.last_coordinates 0 0)
      ((s.touch_evt.last_coordinates 1 1 : Int) - s.touch_evt.last_coordinates 0 1)
    push_cast at h
    rw [h]
    unfold dist_end
    simp only [c _ b00.2, c _ b01.2, c _ b10.2, c _ b11.2]
    exact toInt16_sqrt_small _ he

/-- C24 as amended, at the two-finger session from (50,50), (150,150) to (80,80),
(120,120): the integer parts of the exact square roots are the computed distances 141
and 56. -/
theorem C24_dist_is_floor_sqrt_witness :
    ⌊Real.sqrt (((twoFingerExample.touch_evt.start_coordinates 1 0 : ℝ)
          - twoFingerExample.touch_evt.start_coordinates 0 0) ^ 2
        + ((twoFingerExample.touch_evt.start_coordinates 1 1 : ℝ)
          - twoFingerExample.touch_evt.start_coordinates 0 1) ^ 2)⌋ = 141
      ∧ ⌊Real.sqrt (((twoFingerExample.touch_evt.last_coordinates 1 0 : ℝ)
          - twoFingerExample.touch_evt.last_coordinates 0 0) ^ 2
        + ((twoFingerExample.touch_evt.last_coordinates 1 1 : ℝ)
          - twoFingerExample.touch_evt.last_coordinates 0 1) ^ 2)⌋ = 56 := by
  have h := C24_dist_is_floor_sqrt twoFingerExample
    (by intro i j hi hj; interval_cases i <;> interval_cases j <;> decide)
    (by decide) (by decide)
  obtain ⟨h1, h2⟩ := two_finger_example_dist
  exact ⟨h.1.symm.trans h1, h.2.symm.trans h2⟩

/-- C25: when `Touch()` calls `Gesture_Handler(1)` on the lift of a single-touch session,
the swipe it selects has a displacement of at least 40 on its axis (`dx`, `dy` the
distances of point 0 in the state the handler is called in): `changeBands(-1)` (down)
only with `dy >= 40`, `changeBands(1)` (up) only with `dy <= -40`, `Rate(-1)` (left) only
with `dx <= -40`, `Rate(1)` (right) only with `dx >= 40`. -/
theorem C25_swipe_displacement (s : State) (p : Poll) (hl : liftTransition s p)
    (h1 : s.previous_touch = 1) (hG : Call.Gesture_Handler 1 ∈ (Touch s p).2) :
    (Call.changeBands (-1) ∈ (Touch s p).2 →
        (Touch_lifted_distances s p).touch_evt.distance 0 1 ≥ 40)
      ∧ (Call.changeBands 1 ∈ (Touch s p).2 →
        (Touch_lifted_distances s p).touch_evt.distance 0 1 ≤ -40)
      ∧ (Call.Rate (-1) ∈ (Touch s p).2 →
        (Touch_lifted_distances s p).touch_evt.distance 0 0 ≤ -40)
      ∧ (Call.Rate 1 ∈ (Touch s p).2 →
        (Touch_lifted_distances s p).touch_evt.distance 0 0 ≥ 40) := by
  obtain ⟨ht, hc, h0⟩ := hl
  rw [Touch_lift s p h0 ⟨ht, hc⟩, Touch_lifted_classifies] at hG ⊢
  by_cases hb : s.previous_touch = 1
      ∧ abs ((Touch_lifted_distances s p).touch_evt.distance 0 0) < BUTTON_TOUCH
      ∧ abs ((Touch_lifted_distances s p).touch_evt.distance 0 1) < BUTTON_TOUCH
  · rw [if_pos hb] at hG
    simp at hG
  · rw [if_neg hb, h1]
    have hfar : ¬ (abs ((Touch_lifted_distances s p).touch_evt.distance 0 0) < 40
        ∧ abs ((Touch_lifted_distances s p).touch_evt.distance 0 1) < 40) :=
      fun h => hb ⟨h1, h⟩
    rw [abs_eq_natAbs, abs_eq_natAbs] at hfar
    unfold Gesture_Handler
    simp only [abs_eq_natAbs]
    split_ifs <;> simp <;> omega

/-- C25 at a concrete input: press at (100,100), lift at (100,60); the swipe is
`changeBands(1)` (up) and `dy` is -40. -/
theorem C25_swipe_displacement_witness :
    Call.changeBands 1 ∈ (Touch (Touch (initState 0 fun _ => 0)
        (touchPoll 1 100 100 0 0 false)).1 (touchPoll 0 100 60 0 0 false)).2
      ∧ (Touch_lifted_distances (Touch (initState 0 fun _ => 0)
        (touchPoll 1 100 100 0 0 false)).1 (touchPoll 0 100 60 0 0 false)).touch_evt.distance 0 1
          ≤ -40 := by
  have hm : Call.changeBands 1 ∈ (Touch (Touch (initState 0 fun _ => 0)
      (touchPoll 1 100 100 0 0 false)).1 (touchPoll 0 100 60 0 0 false)).2 := by decide
  exact ⟨hm, (C25_swipe_displacement _ _ (by decide) rfl (by decide)).2.1 hm⟩

/-- C26: the touch count that classifies a session is the count of its first poll: after
a press that reports `n` touches and any tracking polls (whatever counts they report)
`previous_touch` is `n`, and the lift tests `n == 1` for the button and otherwise calls
`Gesture_Handler(n)`. -/
theorem C26_count_of_first_poll (s : State) (press lift : Poll) (tracking : List Poll) (n : Nat)
    (hs : s.previous_touch = 0) (hpress : press.isPress n)
    (htrack : ∀ q ∈ tracking, q.isTracking) (hlift : lift.isLift) :
    (run s (press :: tracking)).1.previous_touch = n
      ∧ (Touch (run s (press :: tracking)).1 lift).2 =
        if n = 1
            ∧ abs ((Touch_lifted_distances (run s (press :: tracking)).1 lift).touch_evt.distance
                0 0) < BUTTON_TOUCH
            ∧ abs ((Touch_lifted_distances (run s (press :: tracking)).1 lift).touch_evt.distance
                0 1) < BUTTON_TOUCH
        then [Call.Button_Handler (press.getTScoordinates 0 0) (press.getTScoordinates 0 1)]
        else Call.Gesture_Handler n ::
          (Gesture_Handler n (Touch_lifted_distances (run s (press :: tracking)).1 lift)).2 := by
  obtain ⟨-, hp, hc⟩ := run_press_tracking s press tracking n hs hpress htrack
  refine ⟨hp, ?_⟩
  rw [Touch_lift _ lift (by rw [hp]; exact hpress.2.2) hlift, Touch_lifted_classifies, hp, hc]

/-- C26 at concrete inputs: a session that starts with one touch and reports two touches
while tracking is classified with 1 (here a swipe right), and one that starts with two
touches and reports one while tracking is classified with 2. -/
theorem C26_count_of_first_poll_witness :
    (run (initState 0 fun _ => 0)
        [touchPoll 1 100 100 0 0 false, touchPoll 2 130 100 300 100 false]).1.previous_touch = 1
      ∧ (run (initState 0 fun _ => 0)
        [touchPoll 2 100 100 300 100 false, touchPoll 1 130 100 0 0 false]).1.previous_touch = 2 :=
  ⟨(C26_count_of_first_poll (initState 0 fun _ => 0) (touchPoll 1 100 100 0 0 false)
      (touchPoll 0 160 100 300 100 false) [touchPoll 2 130 100 300 100 false] 1 rfl
      (by decide) (by decide) (by decide)).1,
   (C26_count_of_first_poll (initState 0 fun _ => 0) (touchPoll 2 100 100 300 100 false)
      (touchPoll 0 160 100 0 0 false) [touchPoll 1 130 100 0 0 false] 2 rfl
      (by decide) (by decide) (by decide)).1⟩

/-- C27: `Gesture_Handler(3)` with the vertical axis not dominant (`|T1_Y| <= |T1_X|`)
falls through to `default`: the state, and with it the speaker volume, is unchanged,
`codec1.volume` is not called, and the only call is the diagnostic print. -/
theorem C27_three_touch_fall_through (s : State)
    (h : abs (s.touch_evt.distance 0 1) ≤ abs (s.touch_evt.distance 0 0)) :
    Gesture_Handler 3 s = (s, [Call.Serial_println " Gesture = 0 : Should not be here!"]) :=
  Gesture_Handler_default 3 s (by decide) (by decide) (fun h' => absurd h'.2 (not_lt.2 h))

/-- C27 at a concrete input: three fingers whose point 0 moved sideways from (100,100) to
(160,100), volume 1/2. -/
theorem C27_three_touch_fall_through_witness :
    (Gesture_Handler 3 (classifyState 3 100 100 160 100 (1 / 2))).2
        = [Call.Serial_println " Gesture = 0 : Should not be here!"]
      ∧ (Gesture_Handler 3 (classifyState 3 100 100 160 100 (1 / 2))).1.spkr_Vol_last 0
        = (classifyState 3 100 100 160 100 (1 / 2)).spkr_Vol_last 0 := by
  have h := C27_three_touch_fall_through (classifyState 3 100 100 160 100 (1 / 2)) (by decide)
  rw [h]
  exact ⟨rfl, rfl⟩

/-! ## `Button_Handler`: hidden buttons and the FN button -/

theorem onButton_hidden (x : Int) (y : Nat) (b : Standard_Button) (c : BtnCall)
    (h : b.show_ = OFF) : onButton x y b c = [] := by
  unfold onButton
  rw [h]
  split_ifs <;> first | rfl | (exfalso; apply_assumption; rfl)

theorem onLabel_hidden (x : Int) (y : Nat) (l : Label) (c : BtnCall)
    (h : l.show_ = OFF) : onLabel x y l c = [] := by
  unfold onLabel
  rw [h]
  split_ifs <;> first | rfl | (exfalso; apply_assumption; rfl)

theorem onFrequency_Display_outside (x : Int) (y : Nat) (d : Frequency_Display)
    (h : ¬ inRect x y d.bx d.by_ d.bw d.bh) : onFrequency_Display x y d = [] := by
  unfold onFrequency_Display
  rw [if_neg h]

/-- C28: when every standard button and every label has `show == OFF` and `(x, y)` lies
outside the FN button rectangle, outside the frequency display rectangles `disp_Freq[0]`
and `disp_Freq[2]` and outside the hidden test area, `Button_Handler` leaves all tables
as they are and makes no call but the print of the coordinates and, when a popup is open,
the reset of the popup timer: no control function is called. -/
theorem C28_hidden_buttons_ignored (PANEL_ROWS PRESETS : Int) (x : Int) (y : Nat) (t : Tables)
    (hbtn : ∀ b, (t.std_btn b).show_ = OFF) (hlbl : ∀ l, (t.labels l).show_ = OFF)
    (hfn : ¬ inRect x y (t.std_btn Btn.FN_BTN).bx (t.std_btn Btn.FN_BTN).by_
      (t.std_btn Btn.FN_BTN).bw (t.std_btn Btn.FN_BTN).bh)
    (hf0 : ¬ inRect x y (t.disp_Freq 0).bx (t.disp_Freq 0).by_ (t.disp_Freq 0).bw
      (t.disp_Freq 0).bh)
    (hf2 : ¬ inRect x y (t.disp_Freq 2).bx (t.disp_Freq 2).by_ (t.disp_Freq 2).bw
      (t.disp_Freq 2).bh)
    (hhid : ¬ ((x > 700 ∧ x < 800) ∧ (y > 300 ∧ y < 400))) :
    Button_Handler PANEL_ROWS PRESETS x y t =
      (t, [BtnCall.Serial_print "Button:", BtnCall.Serial_print_int x,
            BtnCall.Serial_print " ", BtnCall.Serial_println_int y]
          ++ (if t.popup ≠ 0 then [BtnCall.popup_timer_reset] else [])) := by
  have hc : Button_Handler_controls x y t =
      [BtnCall.Serial_print "Button:", BtnCall.Serial_print_int x,
            BtnCall.Serial_print " ", BtnCall.Serial_println_int y]
          ++ (if t.popup ≠ 0 then [BtnCall.popup_timer_reset] else []) := by
    unfold Button_Handler_controls
    simp only [onButton_hidden _ _ _ _ (hbtn _), onLabel_hidden _ _ _ _ (hlbl _),
      onFrequency_Display_outside _ _ _ hf0, onFrequency_Display_outside _ _ _ hf2,
      List.append_nil]
  unfold Button_Handler
  simp only []
  rw [if_neg hfn, if_neg hhid, hc]

/-- C28 at a concrete input: all buttons hidden, the touch at (50,420) inside the
rectangle shared by the panel buttons. -/
theorem C28_hidden_buttons_ignored_witness :
    Button_Handler 6 4 50 420 (exampleTables OFF 2) =
      (exampleTables OFF 2,
        [BtnCall.Serial_print "Button:", BtnCall.Serial_print_int 50,
          BtnCall.Serial_print " ", BtnCall.Serial_println_int 420]) :=
  (C28_hidden_buttons_ignored 6 4 50 420 (exampleTables OFF 2) (fun _ => rfl) (fun _ => rfl)
    (by decide) (by decide) (by decide) (by decide)).trans rfl

theorem setShow_show (std : Btn → Standard_Button) (a b : Btn) (v : Nat) :
    (setShow std a v b).show_ = if b = a then v else (std b).show_ := by
  unfold setShow
  by_cases h : b = a
  · subst h; simp
  · simp [Function.update, h]

theorem setShow_enabled (std : Btn → Standard_Button) (a b : Btn) (v : Nat) :
    (setShow std a v b).enabled = (std b).enabled := by
  unfold setShow
  by_cases h : b = a
  · subst h; simp
  · simp [Function.update, h]

/-- The `show` flags after the assignments for one panel. -/
theorem setPanel_show (v : Nat) (panel : List Btn) (std : Btn → Standard_Button) (b : Btn) :
    (setPanel v panel std b).show_ = if b ∈ panel then v else (std b).show_ := by
  induction panel generalizing std with
  | nil => simp [setPanel]
  | cons a l ih =>
    have h : setPanel v (a :: l) std = setPanel v l (setShow std a v) := rfl
    rw [h, ih, setShow_show]
    by_cases h1 : b ∈ l
    · simp [h1]
    · by_cases h2 : b = a
      · simp [h2]
      · simp [h1, h2]

/-- The assignments for one panel leave `enabled` alone. -/
theorem setPanel_enabled (v : Nat) (panel : List Btn) (std : Btn → Standard_Button) (b : Btn) :
    (setPanel v panel std b).enabled = (std b).enabled := by
  induction panel generalizing std with
  | nil => simp [setPanel]
  | cons a l ih =>
    have h : setPanel v (a :: l) std = setPanel v l (setShow std a v) := rfl
    rw [h, ih, setShow_enabled]

/-- The `show` flag of a panel button after one branch of the FN button. -/
theorem showPanels_show (label : String) (v1 v2 v3 v4 : Nat) (std : Btn → Standard_Button)
    (b : Btn) (hb : b ∈ panel1 ++ panel2 ++ panel3 ++ panel4) :
    (showPanels label v1 v2 v3 v4 std b).show_ =
      if b ∈ panel4 then v4 else if b ∈ panel3 then v3 else if b ∈ panel2 then v2 else v1 := by
  unfold showPanels
  rw [setPanel_show, setPanel_show, setPanel_show, setPanel_show]
  have h : b ∈ panel4 ∨ b ∈ panel3 ∨ b ∈ panel2 ∨ b ∈ panel1 := by
    simp only [List.mem_append] at hb
    tauto
  rcases h with h | h | h | h <;> simp [h]

/-- The `enabled` value of the FN button after one branch of the FN button. -/
theorem showPanels_enabled (label : String) (v1 v2 v3 v4 : Nat) (std : Btn → Standard_Button) :
    (showPanels label v1 v2 v3 v4 std Btn.FN_BTN).enabled = (std Btn.FN_BTN).enabled := by
  unfold showPanels
  rw [setPanel_enabled, setPanel_enabled, setPanel_enabled, setPanel_enabled]
  simp

/-- The table after a touch inside the FN button rectangle. -/
theorem Button_Handler_FN (PANEL_ROWS PRESETS : Int) (x : Int) (y : Nat) (t : Tables)
    (hfn : inRect x y (t.std_btn Btn.FN_BTN).bx (t.std_btn Btn.FN_BTN).by_
      (t.std_btn Btn.FN_BTN).bw (t.std_btn Btn.FN_BTN).bh) (enabled : Nat)
    (he : enabled = if (((t.std_btn Btn.FN_BTN).enabled + 1 : Nat) : Int) > PANEL_ROWS - 1
      then 2 else (t.std_btn Btn.FN_BTN).enabled + 1) :
    (Button_Handler PANEL_ROWS PRESETS x y t).1.std_btn =
      if enabled = 3 then
        showPanels "Fn 2" OFF ON OFF OFF
          (Function.update t.std_btn Btn.FN_BTN { t.std_btn Btn.FN_BTN with enabled := enabled })
      else if enabled = 4 then
        showPanels "Fn 3" OFF OFF ON OFF
          (Function.update t.std_btn Btn.FN_BTN { t.std_btn Btn.FN_BTN with enabled := enabled })
      else if enabled = 5 then
        showPanels "Fn 4" OFF OFF OFF ON
          (Function.update t.std_btn Btn.FN_BTN { t.std_btn Btn.FN_BTN with enabled := enabled })
      else
        showPanels "Fn 1" ON OFF OFF OFF
          (Function.update t.std_btn Btn.FN_BTN { t.std_btn Btn.FN_BTN with enabled := enabled }) := by
  unfold Button_Handler
  simp only []
  rw [if_pos hfn, ← he]

/-- C29: after a touch strictly inside the FN button rectangle the FN button's `enabled`
is the old value plus 1, replaced by 2 when that exceeds `PANEL_ROWS - 1`, and each of the
24 panel buttons has `show == ON` if it belongs to the panel selected by the new value
(panel 2 for 3, panel 3 for 4, panel 4 for 5, panel 1 for every other value) and
`show == OFF` otherwise; the four panels have six buttons each and no button in
common. -/
theorem C29_fn_cycles_panels (PANEL_ROWS PRESETS : Int) (x : Int) (y : Nat) (t : Tables)
    (hfn : inRect x y (t.std_btn Btn.FN_BTN).bx (t.std_btn Btn.FN_BTN).by_
      (t.std_btn Btn.FN_BTN).bw (t.std_btn Btn.FN_BTN).bh) :
    ((Button_Handler PANEL_ROWS PRESETS x y t).1.std_btn Btn.FN_BTN).enabled
        = (if (((t.std_btn Btn.FN_BTN).enabled + 1 : Nat) : Int) > PANEL_ROWS - 1
            then 2 else (t.std_btn Btn.FN_BTN).enabled + 1)
      ∧ (∀ b ∈ panel1 ++ panel2 ++ panel3 ++ panel4,
          ((Button_Handler PANEL_ROWS PRESETS x y t).1.std_btn b).show_
            = if b ∈ shownPanel
                  ((Button_Handler PANEL_ROWS PRESETS x y t).1.std_btn Btn.FN_BTN).enabled
              then ON else OFF)
      ∧ (panel1 ++ panel2 ++ panel3 ++ panel4).Nodup
      ∧ panel1.length = 6 ∧ panel2.length = 6 ∧ panel3.length = 6 ∧ panel4.length = 6 := by
  have hstd := Button_Handler_FN PANEL_ROWS PRESETS x y t hfn _ rfl
  have hen : ((Button_Handler PANEL_ROWS PRESETS x y t).1.std_btn Btn.FN_BTN).enabled
      = (if (((t.std_btn Btn.FN_BTN).enabled + 1 : Nat) : Int) > PANEL_ROWS - 1
          then 2 else (t.std_btn Btn.FN_BTN).enabled + 1) := by
    rw [hstd]
    split_ifs <;> rw [showPanels_enabled] <;> simp
  refine ⟨hen, ?_, by decide, rfl, rfl, rfl, rfl⟩
  intro b hb
  rw [hen, hstd]
  generalize (if (((t.std_btn Btn.FN_BTN).enabled + 1 : Nat) : Int) > PANEL_ROWS - 1
      then 2 else (t.std_btn Btn.FN_BTN).enabled + 1) = e
  by_cases h3 : e = 3
  · rw [if_pos h3, showPanels_show _ _ _ _ _ _ _ hb]
    subst h3
    cases b <;> simp [panel1, panel2, panel3, panel4, shownPanel, ON, OFF] at hb ⊢
  · by_cases h4 : e = 4
    · rw [if_neg h3, if_pos h4, showPanels_show _ _ _ _ _ _ _ hb]
      subst h4
      cases b <;> simp [panel1, panel2, panel3, panel4, shownPanel, ON, OFF] at hb ⊢
    · by_cases h5 : e = 5
      · rw [if_neg h3, if_neg h4, if_pos h5, showPanels_show _ _ _ _ _ _ _ hb]
        subst h5
        cases b <;> simp [panel1, panel2, panel3, panel4, shownPanel, ON, OFF] at hb ⊢
      · rw [if_neg h3, if_neg h4, if_neg h5, showPanels_show _ _ _ _ _ _ _ hb]
        cases b <;> simp [panel1, panel2, panel3, panel4, shownPanel, ON, OFF, h3, h4, h5] at hb ⊢

/-- C29 at concrete inputs, with `PANEL_ROWS` 6 and a touch at (750,420) inside the FN
button: from `enabled` 2 the new value is 3 and panel 2 is shown (NB on, MODE off); from
`enabled` 5 the new value is 2 and panel 1 is shown (MODE on, RIT off). -/
theorem C29_fn_cycles_panels_witness :
    ((Button_Handler 6 4 750 420 (exampleTables ON 2)).1.std_btn Btn.FN_BTN).enabled = 3
      ∧ ((Button_Handler 6 4 750 420 (exampleTables ON 2)).1.std_btn Btn.NB_BTN).show_ = ON
      ∧ ((Button_Handler 6 4 750 420 (exampleTables ON 2)).1.std_btn Btn.MODE_BTN).show_ = OFF
      ∧ ((Button_Handler 6 4 750 420 (exampleTables ON 5)).1.std_btn Btn.FN_BTN).enabled = 2
      ∧ ((Button_Handler 6 4 750 420 (exampleTables ON 5)).1.std_btn Btn.MODE_BTN).show_ = ON
      ∧ ((Button_Handler 6 4 750 420 (exampleTables ON 5)).1.std_btn Btn.RIT_BTN).show_ = OFF := by
  have h2 := C29_fn_cycles_panels 6 4 750 420 (exampleTables ON 2) (by decide)
  have h5 := C29_fn_cycles_panels 6 4 750 420 (exampleTables ON 5) (by decide)
  have e2 : ((Button_Handler 6 4 750 420 (exampleTables ON 2)).1.std_btn Btn.FN_BTN).enabled = 3 :=
    h2.1.trans (by decide)
  have e5 : ((Button_Handler 6 4 750 420 (exampleTables ON 5)).1.std_btn Btn.FN_BTN).enabled = 2 :=
    h5.1.trans (by decide)
  refine ⟨e2, ?_, ?_, e5, ?_, ?_⟩
  · rw [h2.2.1 Btn.NB_BTN (by decide), e2]; decide
  · rw [h2.2.1 Btn.MODE_BTN (by decide), e2]; decide
  · rw [h5.2.1 Btn.MODE_BTN (by decide), e5]; decide
  · rw [h5.2.1 Btn.RIT_BTN (by decide), e5]; decide

end UserInput
